import Mathlib

/-!
# vkinfo: embedding of `src/vkinfo.c`

The program is one function, `vkinfo`, that talks to two external
collaborators (GLFW and the Vulkan runtime) and prints a report.  The
embedding makes the collaborators an explicit value (`Runtime`) and makes
every externally visible step of a run an `Event`; a run is the list of its
events together with its exit status.

Machine integers: every count is a `uint32_t` that the program only compares
and uses as a loop bound (loop counters are `size_t`), so counts are `Nat`.
`malloc` and every runtime call other than `vkCreateInstance` are taken to
succeed, as the source does (it checks none of their results).
-/

namespace Vkinfo

/-! ## Device classifier (`device_type_string`, lines 26-40) -/

/-- The local table `strings[]` of `device_type_string`, indexed by
`VK_PHYSICAL_DEVICE_TYPE_OTHER = 0` to `VK_PHYSICAL_DEVICE_TYPE_CPU = 4`. -/
def strings : List String :=
  ["other", "integrated GPU", "discrete GPU", "virtual GPU", "CPU"]

/-- The guard of line 36, `type < 0 || type > sizeof(strings) / sizeof(*strings)`:
true when the function answers "unknown" without touching the table.  A
negative code is caught by either disjunct whatever the signedness the
compiler picks for the enum. -/
def device_type_guard (type : Int) : Bool :=
  decide (type < 0) || decide (type > (strings.length : Int))

/-- The index at which `device_type_string` reads `strings[]` (line 39), or
`none` when the guard returns before the table is read. -/
def device_type_index (type : Int) : Option Nat :=
  if device_type_guard type then none else some type.toNat

/-- Embedding of `device_type_string`.  The result is `none` when line 39
reads `strings[]` outside its entries: the C program has no defined result
there. -/
def device_type_string (type : Int) : Option String :=
  match device_type_index type with
  | none => some "unknown"
  | some i => strings[i]?

/-! ## The collaborators -/

/-- The fields of `VkExtensionProperties` that the program prints. -/
structure VkExtensionProperties where
  extensionName : String
  specVersion : Nat
  deriving DecidableEq, Repr

/-- The fields of `VkLayerProperties` that the program prints. -/
structure VkLayerProperties where
  layerName : String
  specVersion : Nat
  implementationVersion : Nat
  description : String
  deriving DecidableEq, Repr

/-- The fields of `VkPhysicalDeviceProperties` that the program prints.
`deviceType` is the raw enum value. -/
structure VkPhysicalDeviceProperties where
  deviceName : String
  apiVersion : Nat
  driverVersion : Nat
  vendorID : Nat
  deviceID : Nat
  deviceType : Int
  deriving DecidableEq, Repr

/-- One two-phase query of the runtime.  `count` is the value the call with a
`NULL` destination writes to the count variable.  `fetch capacity` is the
sequence of elements the second call hands back when the count variable holds
`capacity` on entry; the count it writes back is the length of that
sequence. -/
structure Enumeration (α : Type) where
  count : Nat
  fetch : Nat → List α

/-- Everything a run of `vkinfo` obtains from GLFW and the Vulkan runtime.
`H` is the type of `VkPhysicalDevice` handles. -/
structure Runtime (H : Type) where
  /-- The array returned by `glfwGetRequiredInstanceExtensions`; its length is
  `n_glfw_extensions`. -/
  glfw_extensions : List String
  /-- The query `vkEnumerateInstanceExtensionProperties`. -/
  instanceExtensions : Enumeration VkExtensionProperties
  /-- The query `vkEnumerateInstanceLayerProperties`. -/
  instanceLayers : Enumeration VkLayerProperties
  /-- Whether `vkCreateInstance` returns `VK_SUCCESS`. -/
  createInstance : Bool
  /-- The query `vkEnumeratePhysicalDevices`. -/
  physicalDevices : Enumeration H
  /-- The result of `vkGetPhysicalDeviceProperties` for a handle. -/
  deviceProperties : H → VkPhysicalDeviceProperties
  /-- The query `vkEnumerateDeviceExtensionProperties` for a handle. -/
  deviceExtensions : H → Enumeration VkExtensionProperties

/-! ## Events of a run -/

/-- The heap buffers of `vkinfo`, named after the variables that hold them.
`device_extensions i` is the buffer of iteration `i` of the device loop. -/
inductive Buffer where
  | available_extensions
  | available_layers
  | devices
  | device_extensions (i : Nat)
  deriving DecidableEq, Repr

/-- The externally visible steps of a run, in the vocabulary of the source. -/
inductive Event where
  | glfwInit
  | glfwGetRequiredInstanceExtensions
  /-- An enumeration call with a `NULL` destination. -/
  | enumerateCount (b : Buffer)
  /-- The call `malloc(sizeof(element) * n)` for buffer `b`. -/
  | malloc (b : Buffer) (n : Nat)
  /-- An enumeration call with destination `b`, the count variable holding
  `capacity` on entry. -/
  | enumerateFetch (b : Buffer) (capacity : Nat)
  /-- The program reads element `i` of buffer `b`. -/
  | read (b : Buffer) (i : Nat)
  | free (b : Buffer)
  | vkCreateInstance
  /-- The call `vkGetPhysicalDeviceProperties` in iteration `i` of the device loop. -/
  | vkGetPhysicalDeviceProperties (i : Nat)
  | vkDestroyInstance
  | glfwTerminate
  /-- One `printf` call, with the text it writes to standard output. -/
  | printf (s : String)
  /-- One `fprintf(stderr, ...)` call, with the text it writes. -/
  | fprintf_stderr (s : String)
  deriving DecidableEq, Repr

/-- The result of a run: the events in order, and the value `vkinfo` returns.
`exit = none` means the run reached a read outside an array, where the C
program has no defined behaviour: the trace ends with the `read` event of a
heap buffer at an index outside its allocation, or, for `strings[]`, with the
last event before that read. -/
structure Outcome where
  trace : List Event
  exit : Option Nat
  deriving DecidableEq, Repr

/-- The `printf` texts of a trace, in order. -/
def stdout (t : List Event) : List String :=
  t.filterMap fun e => match e with
    | .printf s => some s
    | _ => none

/-- The `fprintf(stderr, ...)` texts of a trace, in order. -/
def stderr (t : List Event) : List String :=
  t.filterMap fun e => match e with
    | .fprintf_stderr s => some s
    | _ => none

/-! ## The program -/

/-- Format `%u` of a `uint32_t` argument (a `Nat` stands for the value of the
`uint32_t` field). -/
def fmt_u (n : Nat) : String := toString n

/-- Format `%u` of the enum argument `deviceType`: the code as an unsigned
32-bit number. -/
def fmt_enum (type : Int) : String := toString (type % 2 ^ 32).toNat

/-- The format `"%s (spec version %u)\n"` of lines 95-99. -/
def fmt_extension (e : VkExtensionProperties) : String :=
  e.extensionName ++ " (spec version " ++ fmt_u e.specVersion ++ ")\n"

/-- The format `"%s (spec version %u; version %u; %s)\n"` of lines 116-122. -/
def fmt_layer (l : VkLayerProperties) : String :=
  l.layerName ++ " (spec version " ++ fmt_u l.specVersion ++ "; version "
    ++ fmt_u l.implementationVersion ++ "; " ++ l.description ++ ")\n"

/-- The format `"  %s (spec version %u)\n"` of lines 188-192. -/
def fmt_device_extension (e : VkExtensionProperties) : String :=
  "  " ++ e.extensionName ++ " (spec version " ++ fmt_u e.specVersion ++ ")\n"

/-- A record loop `for (i = 0; i < n; i++) printf(fmt, buf[i]...)` from
index `i` on, over the elements the fetch call reported; `cap` is the number
of elements `buf` was allocated for.  The flag is `false` when the loop reads
`buf[i]` with `i` outside the allocation; the run stops at that read. -/
def forRecords {α : Type} (b : Buffer) (cap : Nat) (fmt : α → String) :
    Nat → List α → List Event × Bool
  | _, [] => ([], true)
  | i, x :: xs =>
    if i < cap then
      let r := forRecords b cap fmt (i + 1) xs
      (Event.read b i :: Event.printf (fmt x) :: r.1, r.2)
    else ([Event.read b i], false)

/-- The block shared by lines 82-103, 105-126 and 174-196: count call,
`malloc`, fetch call, heading, placeholder when the count variable is 0,
record loop, blank line, `free`. -/
def enumerateAndPrint {α : Type} (b : Buffer) (q : Enumeration α)
    (heading placeholder : String) (fmt : α → String) : List Event × Bool :=
  let n := q.count
  let buf := q.fetch n
  let r := forRecords b n fmt 0 buf
  ([Event.enumerateCount b, Event.malloc b n, Event.enumerateFetch b n,
      Event.printf heading]
    ++ (if buf.length = 0 then [Event.printf placeholder] else [])
    ++ r.1
    ++ (if r.2 then [Event.printf "\n", Event.free b] else []),
   r.2)

/-- Lines 57-80: `glfwInit`, the required extensions and their section. -/
def requiredSection {H : Type} (rt : Runtime H) : List Event :=
  [Event.glfwInit, Event.glfwGetRequiredInstanceExtensions,
      Event.printf "INSTANCE EXTENSIONS REQUIRED BY GLFW\n"]
    ++ (if rt.glfw_extensions.length = 0 then [Event.printf "<none>\n"] else [])
    ++ rt.glfw_extensions.map (fun s => Event.printf (s ++ "\n"))
    ++ [Event.printf "\n"]

/-- Lines 82-103. -/
def instanceExtensionsSection {H : Type} (rt : Runtime H) : List Event × Bool :=
  enumerateAndPrint Buffer.available_extensions rt.instanceExtensions
    "INSTANCE EXTENSIONS AVAILABLE\n" "<none>\n" fmt_extension

/-- Lines 105-126. -/
def instanceLayersSection {H : Type} (rt : Runtime H) : List Event × Bool :=
  enumerateAndPrint Buffer.available_layers rt.instanceLayers
    "LAYERS AVAILABLE\n" "<none>\n" fmt_layer

/-- Lines 154-167 of the device loop body: the property query and the lines
printed before the `Type` line. -/
def deviceHeader (i : Nat) (p : VkPhysicalDeviceProperties) : List Event :=
  [Event.vkGetPhysicalDeviceProperties i,
   Event.printf ("DEVICE " ++ p.deviceName ++ "\n"),
   Event.printf "\n",
   Event.printf ("  Version: " ++ fmt_u p.apiVersion ++ " (api); "
     ++ fmt_u p.driverVersion ++ " (driver)\n"),
   Event.printf ("  ID: " ++ fmt_u p.vendorID ++ " (vendor); "
     ++ fmt_u p.deviceID ++ " (device)\n")]

/-- The format `"  Type: %u (%s)\n"` of line 168. -/
def fmt_type (type : Int) (label : String) : String :=
  "  Type: " ++ fmt_enum type ++ " (" ++ label ++ ")\n"

/-- Lines 153-196, the body of the device loop after `devices[i]` is read.
The arguments of the `Type` line are evaluated before it is printed, so a
read outside `strings[]` stops the run after the `ID` line. -/
def deviceBody {H : Type} (rt : Runtime H) (i : Nat) (device : H) :
    List Event × Bool :=
  let p := rt.deviceProperties device
  match device_type_string p.deviceType with
  | none => (deviceHeader i p, false)
  | some label =>
    let r := enumerateAndPrint (Buffer.device_extensions i)
      (rt.deviceExtensions device) "  Extensions:\n" "  <none>\n"
      fmt_device_extension
    (deviceHeader i p
      ++ [Event.printf (fmt_type p.deviceType label), Event.printf "\n"]
      ++ r.1, r.2)

/-- The device loop of lines 152-197 from index `i` on, over the handles the
fetch call reported; `cap` is the number of handles `devices` was allocated
for. -/
def forDevices {H : Type} (rt : Runtime H) (cap : Nat) :
    Nat → List H → List Event × Bool
  | _, [] => ([], true)
  | i, d :: ds =>
    if i < cap then
      let body := deviceBody rt i d
      if body.2 then
        let r := forDevices rt cap (i + 1) ds
        (Event.read Buffer.devices i :: body.1 ++ r.1, r.2)
      else (Event.read Buffer.devices i :: body.1, false)
    else ([Event.read Buffer.devices i], false)

/-- Lines 144-151: the device enumeration and the placeholder. -/
def devicesPrologue {H : Type} (rt : Runtime H) : List Event :=
  let n := rt.physicalDevices.count
  [Event.enumerateCount Buffer.devices, Event.malloc Buffer.devices n,
      Event.enumerateFetch Buffer.devices n]
    ++ (if (rt.physicalDevices.fetch n).length = 0
        then [Event.printf "<no physical devices>\n"] else [])

/-- Embedding of `vkinfo` (lines 55-203). -/
def vkinfo {H : Type} (rt : Runtime H) : Outcome :=
  let s1 := requiredSection rt
  let s2 := instanceExtensionsSection rt
  if !s2.2 then ⟨s1 ++ s2.1, none⟩ else
  let s3 := instanceLayersSection rt
  if !s3.2 then ⟨s1 ++ s2.1 ++ s3.1, none⟩ else
  if !rt.createInstance then
    ⟨s1 ++ s2.1 ++ s3.1 ++ [Event.vkCreateInstance,
        Event.fprintf_stderr "ERROR vkCreateInstance() failed\n",
        Event.glfwTerminate], some 1⟩
  else
    let n := rt.physicalDevices.count
    let s4 := forDevices rt n 0 (rt.physicalDevices.fetch n)
    if !s4.2 then
      ⟨s1 ++ s2.1 ++ s3.1 ++ [Event.vkCreateInstance] ++ devicesPrologue rt
        ++ s4.1, none⟩
    else
      ⟨s1 ++ s2.1 ++ s3.1 ++ [Event.vkCreateInstance] ++ devicesPrologue rt
        ++ s4.1 ++ [Event.free Buffer.devices, Event.vkDestroyInstance,
          Event.glfwTerminate], some 0⟩

/-! ## Mock runtimes -/

/-- A physical device of a mock: its properties and its extensions. -/
structure PhysicalDeviceRecord where
  properties : VkPhysicalDeviceProperties
  extensions : List VkExtensionProperties
  deriving DecidableEq, Repr

/-- The data of a mock runtime: what each collection holds and whether the
creation of the instance succeeds. -/
structure Mock where
  required : List String
  instanceExtensions : List VkExtensionProperties
  layers : List VkLayerProperties
  createInstance : Bool
  devices : List PhysicalDeviceRecord
  deriving DecidableEq, Repr

/-- The two-phase query over a collection that holds `xs`: the count call
reports the number of elements, the fetch call hands back as many of them as
the capacity allows, in order. -/
def Enumeration.ofList {α : Type} (xs : List α) : Enumeration α :=
  ⟨xs.length, fun capacity => xs.take capacity⟩

/-- The runtime that serves the data of a mock; a device's handle is its
record. -/
def Mock.toRuntime (m : Mock) : Runtime PhysicalDeviceRecord where
  glfw_extensions := m.required
  instanceExtensions := Enumeration.ofList m.instanceExtensions
  instanceLayers := Enumeration.ofList m.layers
  createInstance := m.createInstance
  physicalDevices := Enumeration.ofList m.devices
  deviceProperties := fun d => d.properties
  deviceExtensions := fun d => Enumeration.ofList d.extensions

/-- The mock of the end-to-end scenario. -/
def scenario : Mock where
  required := []
  instanceExtensions := [⟨"VK_KHR_surface", 1⟩, ⟨"VK_KHR_x", 2⟩]
  layers := []
  createInstance := true
  devices := [⟨⟨"GPU0", 1, 1, 0x10, 0x20, 2⟩, []⟩]

/-! ## The two-phase protocol -/

/-- A query follows the two-phase protocol when its fetch call never reports
more elements than the capacity it was handed. -/
def Enumeration.HonoursCapacity {α : Type} (q : Enumeration α) : Prop :=
  ∀ capacity, (q.fetch capacity).length ≤ capacity

/-- Every query of the runtime follows the two-phase protocol. -/
def Runtime.HonoursCapacity {H : Type} (rt : Runtime H) : Prop :=
  rt.instanceExtensions.HonoursCapacity ∧ rt.instanceLayers.HonoursCapacity ∧
    rt.physicalDevices.HonoursCapacity ∧
    ∀ d, (rt.deviceExtensions d).HonoursCapacity

/-- The buffer an event is about, if any. -/
def Event.buffer : Event → Option Buffer
  | .enumerateCount b => some b
  | .malloc b _ => some b
  | .enumerateFetch b _ => some b
  | .read b _ => some b
  | .free b => some b
  | _ => none

/-- The events of the device part of a run: output, property queries, events
on the device buffers, and the two teardown calls. -/
def Event.onDevices (e : Event) : Prop :=
  (∃ s, e = Event.printf s) ∨ (∃ k, e = Event.vkGetPhysicalDeviceProperties k) ∨
    e.buffer = some Buffer.devices ∨ (∃ k, e.buffer = some (Buffer.device_extensions k)) ∨
    e = Event.vkDestroyInstance ∨ e = Event.glfwTerminate

/-- The events of a record loop that prints every element of `xs`, the first
one read at index `i`: each element is read, then its line is printed. -/
def recordEvents {α : Type} (b : Buffer) (fmt : α → String) :
    Nat → List α → List Event
  | _, [] => []
  | i, x :: xs => Event.read b i :: Event.printf (fmt x) :: recordEvents b fmt (i + 1) xs

/-- The events of one complete enumeration of a collection that holds `xs`:
one count call, one `malloc` for as many elements as `xs` has, one fetch call
with that capacity, the heading, the placeholder if `xs` is empty, one record
per element in order, the blank line, `free`. -/
def enumerationEvents {α : Type} (b : Buffer) (xs : List α)
    (heading placeholder : String) (fmt : α → String) : List Event :=
  [Event.enumerateCount b, Event.malloc b xs.length,
      Event.enumerateFetch b xs.length, Event.printf heading]
    ++ (if xs.length = 0 then [Event.printf placeholder] else [])
    ++ recordEvents b fmt 0 xs
    ++ [Event.printf "\n", Event.free b]

/-! ## Reference rendering, from the specification -/

/-- The Device Classifier of the specification (section 4.2): the fixed table
for the known categories, and "unknown" for every code outside the known
range, negative or past the end. -/
def classify (code : Int) : String :=
  if code = 0 then "other"
  else if code = 1 then "integrated GPU"
  else if code = 2 then "discrete GPU"
  else if code = 3 then "virtual GPU"
  else if code = 4 then "CPU"
  else "unknown"

/-- A report section of the specification (sections 4.4 and 6): the heading,
one line per item, or the single line `placeholder` when there is no item,
then a blank line. -/
def referenceSection (heading placeholder : String) (items : List String) : List String :=
  [heading] ++ (if items.length = 0 then [placeholder] else items) ++ [""]

/-- The instance-level part of the report format of section 6: required
extensions, available instance extensions, available layers. -/
def referenceInstance (m : Mock) : List String :=
  referenceSection "INSTANCE EXTENSIONS REQUIRED BY GLFW" "<none>" m.required
    ++ referenceSection "INSTANCE EXTENSIONS AVAILABLE" "<none>"
        (m.instanceExtensions.map fun e =>
          e.extensionName ++ " (spec version " ++ toString e.specVersion ++ ")")
    ++ referenceSection "LAYERS AVAILABLE" "<none>"
        (m.layers.map fun l =>
          l.layerName ++ " (spec version " ++ toString l.specVersion ++ "; version "
            ++ toString l.implementationVersion ++ "; " ++ l.description ++ ")")

/-- The DEVICE block of the report format of section 6.  The type line shows
the raw code, as the unsigned number it is printed as, next to the label of
the classifier; the extension lines and their placeholder carry the
indentation of the sub-section. -/
def referenceDevice (d : PhysicalDeviceRecord) : List String :=
  ["DEVICE " ++ d.properties.deviceName, "",
   "  Version: " ++ toString d.properties.apiVersion ++ " (api); "
     ++ toString d.properties.driverVersion ++ " (driver)",
   "  ID: " ++ toString d.properties.vendorID ++ " (vendor); "
     ++ toString d.properties.deviceID ++ " (device)",
   "  Type: " ++ fmt_enum d.properties.deviceType ++ " ("
     ++ classify d.properties.deviceType ++ ")",
   ""]
  ++ referenceSection "  Extensions:" "  <none>"
      (d.extensions.map fun e =>
        "  " ++ e.extensionName ++ " (spec version " ++ toString e.specVersion ++ ")")

/-- The lines of the report for a mock, with `noDevices` as the line shown
when the mock has no physical device. -/
def reportWith (noDevices : String) (m : Mock) : List String :=
  referenceInstance m
    ++ (if m.devices.length = 0 then [noDevices] else m.devices.flatMap referenceDevice)

/-- The reference rendering of the specification: every empty collection,
the physical devices included, shows the placeholder `<none>` (section 8,
empty-collection property). -/
def referenceReport (m : Mock) : List String := reportWith "<none>" m

/-- The lines of a report as `printf` texts: each line with its newline. -/
def unlines (ls : List String) : List String := ls.map fun l => l ++ "\n"

/-! ## Expected events of the device enumeration of a mock -/

/-- The events of one complete iteration of the device loop for the device
`d` at index `i`: the handle is read, the properties are queried, the header
lines and the type line are printed, then the device's extensions are
enumerated and printed. -/
def deviceEvents (i : Nat) (d : PhysicalDeviceRecord) : List Event :=
  [Event.read Buffer.devices i] ++ deviceHeader i d.properties
    ++ [Event.printf (fmt_type d.properties.deviceType (classify d.properties.deviceType)),
        Event.printf "\n"]
    ++ enumerationEvents (Buffer.device_extensions i) d.extensions
        "  Extensions:\n" "  <none>\n" fmt_device_extension

/-- The events of the device loop over `ds`, the first device at index `i`. -/
def devicesEvents : Nat → List PhysicalDeviceRecord → List Event
  | _, [] => []
  | i, d :: ds => deviceEvents i d ++ devicesEvents (i + 1) ds

/-- The events of the complete device enumeration of lines 144-199. -/
def devicesEnumerationEvents (ds : List PhysicalDeviceRecord) : List Event :=
  [Event.enumerateCount Buffer.devices, Event.malloc Buffer.devices ds.length,
      Event.enumerateFetch Buffer.devices ds.length]
    ++ (if ds.length = 0 then [Event.printf "<no physical devices>\n"] else [])
    ++ devicesEvents 0 ds
    ++ [Event.free Buffer.devices]

/-- The events of lines 57-126 for a mock: the required-extensions section,
then the complete enumerations of the instance extensions and of the layers. -/
def instanceEvents (m : Mock) : List Event :=
  requiredSection m.toRuntime
    ++ enumerationEvents Buffer.available_extensions m.instanceExtensions
        "INSTANCE EXTENSIONS AVAILABLE\n" "<none>\n" fmt_extension
    ++ enumerationEvents Buffer.available_layers m.layers
        "LAYERS AVAILABLE\n" "<none>\n" fmt_layer

/-! ## Concrete runtimes -/

/-- A mock whose instance creation fails, with one element in every
collection. -/
def creationFails : Mock where
  required := ["VK_KHR_surface"]
  instanceExtensions := [⟨"VK_KHR_surface", 25⟩]
  layers := [⟨"VK_LAYER_x", 1, 2, "validation"⟩]
  createInstance := false
  devices := [⟨⟨"GPU0", 1, 1, 0x10, 0x20, 2⟩, [⟨"VK_KHR_swapchain", 70⟩]⟩]

/-- A mock with no physical device and one element in every instance-level
collection. -/
def noDevices : Mock where
  required := ["VK_KHR_surface"]
  instanceExtensions := [⟨"VK_KHR_surface", 25⟩]
  layers := [⟨"VK_LAYER_x", 1, 2, "validation"⟩]
  createInstance := true
  devices := []

/-- A mock in which every collection is empty. -/
def allEmpty : Mock where
  required := []
  instanceExtensions := []
  layers := []
  createInstance := true
  devices := []

/-- A mock with one physical device that reports the type code 5. -/
def pastEndDevice : Mock where
  required := ["VK_KHR_surface"]
  instanceExtensions := [⟨"VK_KHR_surface", 25⟩]
  layers := []
  createInstance := true
  devices := [⟨⟨"GPU5", 1, 1, 0x10, 0x20, 5⟩, [⟨"VK_KHR_swapchain", 70⟩]⟩]

/-- A mock with three physical devices of known types; the second one has
no extension. -/
def mixedExtensions : Mock where
  required := ["VK_KHR_surface", "VK_KHR_xcb_surface"]
  instanceExtensions := [⟨"VK_KHR_surface", 25⟩, ⟨"VK_KHR_xcb_surface", 6⟩]
  layers := [⟨"VK_LAYER_x", 1, 2, "validation"⟩]
  createInstance := true
  devices :=
    [⟨⟨"GPU0", 1, 2, 0x10, 0x20, 2⟩, [⟨"VK_KHR_swapchain", 70⟩, ⟨"VK_KHR_maintenance1", 2⟩]⟩,
     ⟨⟨"GPU1", 3, 4, 0x11, 0x21, 1⟩, []⟩,
     ⟨⟨"CPU0", 5, 6, 0x12, 0x22, 4⟩, [⟨"VK_KHR_swapchain", 70⟩]⟩]

/-- A mock with two physical devices: the first reports the type code 5, the
second the code 2; each has one extension. -/
def pastEndFirst : Mock where
  required := ["VK_KHR_surface"]
  instanceExtensions := [⟨"VK_KHR_surface", 25⟩]
  layers := []
  createInstance := true
  devices :=
    [⟨⟨"GPU5", 1, 1, 0x10, 0x20, 5⟩, [⟨"VK_KHR_swapchain", 70⟩]⟩,
     ⟨⟨"GPU0", 1, 1, 0x11, 0x21, 2⟩, [⟨"VK_KHR_swapchain", 70⟩]⟩]

/-- A runtime whose device collection shrinks between the two calls: the
count call reports 3 handles, the fetch call hands back 2 (handles 0 and 1).
The first device reports the type code 5, the second the code 2. -/
def shrinking : Runtime Nat where
  glfw_extensions := []
  instanceExtensions := ⟨0, fun _ => []⟩
  instanceLayers := ⟨0, fun _ => []⟩
  createInstance := true
  physicalDevices := ⟨3, fun capacity => [0, 1].take capacity⟩
  deviceProperties := fun h =>
    if h = 0 then ⟨"A", 1, 1, 1, 1, 5⟩ else ⟨"B", 1, 1, 1, 2, 2⟩
  deviceExtensions := fun _ => ⟨0, fun _ => []⟩

/-! ## Lemmas on the loops -/

theorem stdout_append (s t : List Event) : stdout (s ++ t) = stdout s ++ stdout t := by
  simp [stdout]

theorem stderr_append (s t : List Event) : stderr (s ++ t) = stderr s ++ stderr t := by
  simp [stderr]

theorem forRecords_mem {α : Type} (b : Buffer) (cap : Nat) (fmt : α → String) (e : Event) :
    ∀ (xs : List α) (i : Nat), e ∈ (forRecords b cap fmt i xs).1 →
      (∃ j, e = Event.read b j ∧ i ≤ j ∧ j < i + xs.length) ∨
        ∃ x ∈ xs, e = Event.printf (fmt x) := by
  intro xs
  induction xs with
  | nil => intro i h; simp [forRecords] at h
  | cons x xs ih =>
    intro i h
    unfold forRecords at h
    split at h
    · simp only [List.mem_cons] at h
      rcases h with h | h | h
      · exact Or.inl ⟨i, h, le_refl _, by simp⟩
      · exact Or.inr ⟨x, by simp, h⟩
      · rcases ih (i + 1) h with ⟨j, hj, h1, h2⟩ | ⟨y, hy, h1⟩
        · exact Or.inl ⟨j, hj, by omega, by simp; omega⟩
        · exact Or.inr ⟨y, by simp [hy], h1⟩
    · simp only [List.mem_singleton] at h
      exact Or.inl ⟨i, h, le_refl _, by simp⟩

theorem forRecords_eq {α : Type} (b : Buffer) (cap : Nat) (fmt : α → String) :
    ∀ (xs : List α) (i : Nat), i + xs.length ≤ cap →
      forRecords b cap fmt i xs = (recordEvents b fmt i xs, true) := by
  intro xs
  induction xs with
  | nil => intro i _; rfl
  | cons x xs ih =>
    intro i h
    have hi : i < cap := by simp at h; omega
    have := ih (i + 1) (by simp at h; omega)
    simp [forRecords, recordEvents, hi, this]

theorem stdout_recordEvents {α : Type} (b : Buffer) (fmt : α → String) :
    ∀ (xs : List α) (i : Nat), stdout (recordEvents b fmt i xs) = xs.map fmt := by
  intro xs
  induction xs with
  | nil => intro i; rfl
  | cons x xs ih =>
    intro i
    have := ih (i + 1)
    simp only [stdout] at this
    simp [recordEvents, stdout, this]

theorem enumerateAndPrint_mem {α : Type} (b : Buffer) (q : Enumeration α)
    (heading placeholder : String) (fmt : α → String) (e : Event)
    (h : e ∈ (enumerateAndPrint b q heading placeholder fmt).1) :
    e = Event.enumerateCount b ∨ e = Event.malloc b q.count ∨
      e = Event.enumerateFetch b q.count ∨ e = Event.free b ∨
      (∃ j, e = Event.read b j ∧ j < (q.fetch q.count).length) ∨
      ∃ s, e = Event.printf s := by
  simp only [enumerateAndPrint, List.mem_append, List.mem_cons] at h
  rcases h with ((((h | h | h | h | h) | h) | h) | h)
  · exact Or.inl h
  · simp [h]
  · simp [h]
  · simp [h]
  · simp at h
  · split at h
    · simp only [List.mem_singleton] at h
      simp [h]
    · simp at h
  · rcases forRecords_mem b _ fmt e _ _ h with ⟨j, hj, _, h2⟩ | ⟨x, _, hx⟩
    · have hlt : j < (q.fetch q.count).length := by omega
      simp [hj, hlt]
    · simp [hx]
  · split at h
    · simp only [List.mem_cons, List.mem_singleton] at h
      rcases h with h | h | h
      · simp [h]
      · simp [h]
      · simp at h
    · simp at h

theorem enumerateAndPrint_prologue_mem {α : Type} (b : Buffer) (q : Enumeration α)
    (heading placeholder : String) (fmt : α → String) :
    Event.enumerateCount b ∈ (enumerateAndPrint b q heading placeholder fmt).1 ∧
      Event.malloc b q.count ∈ (enumerateAndPrint b q heading placeholder fmt).1 ∧
      Event.enumerateFetch b q.count ∈ (enumerateAndPrint b q heading placeholder fmt).1 := by
  simp [enumerateAndPrint]

theorem enumerateAndPrint_eq {α : Type} (b : Buffer) (q : Enumeration α)
    (heading placeholder : String) (fmt : α → String)
    (hq : (q.fetch q.count).length ≤ q.count) :
    enumerateAndPrint b q heading placeholder fmt =
      ([Event.enumerateCount b, Event.malloc b q.count,
          Event.enumerateFetch b q.count, Event.printf heading]
        ++ (if (q.fetch q.count).length = 0 then [Event.printf placeholder] else [])
        ++ recordEvents b fmt 0 (q.fetch q.count)
        ++ [Event.printf "\n", Event.free b], true) := by
  simp [enumerateAndPrint, forRecords_eq b q.count fmt (q.fetch q.count) 0 (by simpa using hq)]

theorem enumerateAndPrint_ofList {α : Type} (b : Buffer) (xs : List α)
    (heading placeholder : String) (fmt : α → String) :
    enumerateAndPrint b (Enumeration.ofList xs) heading placeholder fmt =
      (enumerationEvents b xs heading placeholder fmt, true) := by
  rw [enumerateAndPrint_eq]
  · simp only [Enumeration.ofList, enumerationEvents, List.take_length]
  · simp [Enumeration.ofList]

theorem ofList_honoursCapacity {α : Type} (xs : List α) :
    (Enumeration.ofList xs).HonoursCapacity := by
  intro c
  simp [Enumeration.ofList, List.length_take]

/-- The runtime of a mock follows the two-phase protocol. -/
theorem Mock.honoursCapacity (m : Mock) : m.toRuntime.HonoursCapacity :=
  ⟨ofList_honoursCapacity _, ofList_honoursCapacity _, ofList_honoursCapacity _,
    fun _ => ofList_honoursCapacity _⟩

/-! ## Lemmas on the classifier -/

/-- The table of `device_type_string` is read outside its entries for the
code 5 and for no other code. -/
theorem device_type_string_eq_none_iff (type : Int) :
    device_type_string type = none ↔ type = 5 := by
  rcases lt_or_le type 0 with h | h
  · have : device_type_guard type = true := by simp [device_type_guard, h]
    simp [device_type_string, device_type_index, this]; omega
  · rcases lt_or_le 5 type with h' | h'
    · have : device_type_guard type = true := by simp [device_type_guard, strings, h']
      simp [device_type_string, device_type_index, this]; omega
    · interval_cases type <;> decide

/-- For every code other than 5, `device_type_string` returns the label of the
classifier of the specification. -/
theorem device_type_string_of_ne_five (type : Int) (h : type ≠ 5) :
    device_type_string type = some (classify type) := by
  rcases lt_or_le type 0 with h0 | h0
  · have : device_type_guard type = true := by simp [device_type_guard, h0]
    have h1 : classify type = "unknown" := by
      unfold classify
      repeat' split
      all_goals first | rfl | omega
    simp [device_type_string, device_type_index, this, h1]
  · rcases lt_or_le 5 type with h' | h'
    · have : device_type_guard type = true := by simp [device_type_guard, strings, h']
      have h1 : classify type = "unknown" := by
        unfold classify
        repeat' split
        all_goals first | rfl | omega
      simp [device_type_string, device_type_index, this, h1]
    · interval_cases type
      all_goals first | decide | exact absurd rfl h

/-! ## Lemmas on the device loop -/

theorem deviceBody_none {H : Type} (rt : Runtime H) (i : Nat) (d : H)
    (h : device_type_string (rt.deviceProperties d).deviceType = none) :
    deviceBody rt i d = (deviceHeader i (rt.deviceProperties d), false) := by
  simp [deviceBody, h]

theorem deviceBody_some {H : Type} (rt : Runtime H) (i : Nat) (d : H) (label : String)
    (h : device_type_string (rt.deviceProperties d).deviceType = some label) :
    deviceBody rt i d =
      (deviceHeader i (rt.deviceProperties d)
        ++ [Event.printf (fmt_type (rt.deviceProperties d).deviceType label),
            Event.printf "\n"]
        ++ (enumerateAndPrint (Buffer.device_extensions i) (rt.deviceExtensions d)
              "  Extensions:\n" "  <none>\n" fmt_device_extension).1,
       (enumerateAndPrint (Buffer.device_extensions i) (rt.deviceExtensions d)
              "  Extensions:\n" "  <none>\n" fmt_device_extension).2) := by
  simp [deviceBody, h]

theorem forDevices_cons {H : Type} (rt : Runtime H) (cap i : Nat) (d : H) (ds : List H) :
    forDevices rt cap i (d :: ds) =
      if i < cap then
        if (deviceBody rt i d).2 then
          (Event.read Buffer.devices i :: (deviceBody rt i d).1
            ++ (forDevices rt cap (i + 1) ds).1, (forDevices rt cap (i + 1) ds).2)
        else (Event.read Buffer.devices i :: (deviceBody rt i d).1, false)
      else ([Event.read Buffer.devices i], false) := by
  simp [forDevices]

theorem deviceHeader_mem (i : Nat) (p : VkPhysicalDeviceProperties) (e : Event)
    (he : e ∈ deviceHeader i p) :
    e = Event.vkGetPhysicalDeviceProperties i ∨ ∃ s, e = Event.printf s := by
  simp only [deviceHeader, List.mem_cons, List.mem_singleton] at he
  rcases he with he | he | he | he | he | he
  · exact Or.inl he
  · exact Or.inr ⟨_, he⟩
  · exact Or.inr ⟨_, he⟩
  · exact Or.inr ⟨_, he⟩
  · exact Or.inr ⟨_, he⟩
  · simp at he

theorem deviceBody_mem {H : Type} (rt : Runtime H) (i : Nat) (d : H) (e : Event)
    (h : e ∈ (deviceBody rt i d).1) :
    e = Event.vkGetPhysicalDeviceProperties i ∨ (∃ s, e = Event.printf s) ∨
      e = Event.enumerateCount (Buffer.device_extensions i) ∨
      e = Event.malloc (Buffer.device_extensions i) (rt.deviceExtensions d).count ∨
      e = Event.enumerateFetch (Buffer.device_extensions i) (rt.deviceExtensions d).count ∨
      e = Event.free (Buffer.device_extensions i) ∨
      ∃ j, e = Event.read (Buffer.device_extensions i) j ∧
        j < ((rt.deviceExtensions d).fetch (rt.deviceExtensions d).count).length := by
  cases hl : device_type_string (rt.deviceProperties d).deviceType with
  | none =>
    rw [deviceBody_none rt i d hl] at h
    rcases deviceHeader_mem _ _ e h with h | h
    · exact Or.inl h
    · simp [h]
  | some label =>
    rw [deviceBody_some rt i d label hl] at h
    simp only [List.mem_append, List.mem_cons, List.mem_singleton] at h
    rcases h with (h | h | h | h) | h
    · rcases deviceHeader_mem _ _ e h with h | h
      · exact Or.inl h
      · simp [h]
    · simp [h]
    · simp [h]
    · simp at h
    · rcases enumerateAndPrint_mem _ _ _ _ _ e h with h | h | h | h | h | h
      · simp [h]
      · simp [h]
      · simp [h]
      · simp [h]
      · simp [h]
      · simp [h]

theorem deviceBody_malloc_mem {H : Type} (rt : Runtime H) (i : Nat) (d : H) (j : Nat)
    (h : Event.read (Buffer.device_extensions i) j ∈ (deviceBody rt i d).1) :
    Event.malloc (Buffer.device_extensions i) (rt.deviceExtensions d).count
      ∈ (deviceBody rt i d).1 := by
  cases hl : device_type_string (rt.deviceProperties d).deviceType with
  | none =>
    rw [deviceBody_none rt i d hl] at h
    simp [deviceHeader] at h
  | some label =>
    rw [deviceBody_some rt i d label hl]
    simp [enumerateAndPrint]

theorem forDevices_mem {H : Type} (rt : Runtime H) (cap : Nat) (e : Event) :
    ∀ (ds : List H) (i : Nat), e ∈ (forDevices rt cap i ds).1 →
      (∃ j, e = Event.read Buffer.devices j ∧ i ≤ j ∧ j < i + ds.length) ∨
        ∃ k d, i ≤ k ∧ k < i + ds.length ∧ d ∈ ds ∧ e ∈ (deviceBody rt k d).1 ∧
          ∀ e', e' ∈ (deviceBody rt k d).1 → e' ∈ (forDevices rt cap i ds).1 := by
  intro ds
  induction ds with
  | nil => intro i h; simp [forDevices] at h
  | cons d ds ih =>
    intro i h
    rw [forDevices_cons] at h ⊢
    by_cases hi : i < cap
    · by_cases hb : (deviceBody rt i d).2 = true
      · simp only [hi, hb, if_true, List.cons_append, List.mem_cons, List.mem_append] at h ⊢
        rcases h with h | h | h
        · exact Or.inl ⟨i, h, le_refl _, by simp⟩
        · refine Or.inr ⟨i, d, le_refl _, by simp, by simp, h, ?_⟩
          intro e' he'
          simp [he']
        · rcases ih (i + 1) h with ⟨j, hj, h1, h2⟩ | ⟨k, d', h1, h2, h3, h4, h5⟩
          · exact Or.inl ⟨j, hj, by omega, by simp; omega⟩
          · refine Or.inr ⟨k, d', by omega, by simp; omega, by simp [h3], h4, ?_⟩
            intro e' he'
            simp [h5 e' he']
      · have hb' : (deviceBody rt i d).2 = false := by simpa using hb
        simp only [hi, hb', if_true, Bool.false_eq_true, if_false, List.mem_cons] at h ⊢
        rcases h with h | h
        · exact Or.inl ⟨i, h, le_refl _, by simp⟩
        · refine Or.inr ⟨i, d, le_refl _, by simp, by simp, h, ?_⟩
          intro e' he'
          simp [he']
    · simp only [hi, if_false, List.mem_singleton] at h
      exact Or.inl ⟨i, h, le_refl _, by simp⟩

/-! ## Lemmas on whole runs -/

theorem vkinfo_of_fail {H : Type} (rt : Runtime H)
    (h2 : (instanceExtensionsSection rt).2 = true)
    (h3 : (instanceLayersSection rt).2 = true) (hc : rt.createInstance = false) :
    vkinfo rt =
      ⟨requiredSection rt ++ (instanceExtensionsSection rt).1
        ++ (instanceLayersSection rt).1 ++ [Event.vkCreateInstance,
          Event.fprintf_stderr "ERROR vkCreateInstance() failed\n",
          Event.glfwTerminate], some 1⟩ := by
  simp [vkinfo, h2, h3, hc]

theorem vkinfo_of_ok {H : Type} (rt : Runtime H)
    (h2 : (instanceExtensionsSection rt).2 = true)
    (h3 : (instanceLayersSection rt).2 = true) (hc : rt.createInstance = true)
    (h4 : (forDevices rt rt.physicalDevices.count 0
      (rt.physicalDevices.fetch rt.physicalDevices.count)).2 = true) :
    vkinfo rt =
      ⟨requiredSection rt ++ (instanceExtensionsSection rt).1
        ++ (instanceLayersSection rt).1 ++ [Event.vkCreateInstance]
        ++ devicesPrologue rt
        ++ (forDevices rt rt.physicalDevices.count 0
            (rt.physicalDevices.fetch rt.physicalDevices.count)).1
        ++ [Event.free Buffer.devices, Event.vkDestroyInstance, Event.glfwTerminate],
       some 0⟩ := by
  simp [vkinfo, h2, h3, hc, h4]

theorem vkinfo_of_fault {H : Type} (rt : Runtime H)
    (h2 : (instanceExtensionsSection rt).2 = true)
    (h3 : (instanceLayersSection rt).2 = true) (hc : rt.createInstance = true)
    (h4 : (forDevices rt rt.physicalDevices.count 0
      (rt.physicalDevices.fetch rt.physicalDevices.count)).2 = false) :
    vkinfo rt =
      ⟨requiredSection rt ++ (instanceExtensionsSection rt).1
        ++ (instanceLayersSection rt).1 ++ [Event.vkCreateInstance]
        ++ devicesPrologue rt
        ++ (forDevices rt rt.physicalDevices.count 0
            (rt.physicalDevices.fetch rt.physicalDevices.count)).1, none⟩ := by
  simp [vkinfo, h2, h3, hc, h4]

theorem instanceExtensionsSection_mock (m : Mock) :
    instanceExtensionsSection m.toRuntime =
      (enumerationEvents Buffer.available_extensions m.instanceExtensions
        "INSTANCE EXTENSIONS AVAILABLE\n" "<none>\n" fmt_extension, true) := by
  simp only [instanceExtensionsSection, Mock.toRuntime, enumerateAndPrint_ofList]

theorem instanceLayersSection_mock (m : Mock) :
    instanceLayersSection m.toRuntime =
      (enumerationEvents Buffer.available_layers m.layers
        "LAYERS AVAILABLE\n" "<none>\n" fmt_layer, true) := by
  simp only [instanceLayersSection, Mock.toRuntime, enumerateAndPrint_ofList]

theorem deviceBody_mock (m : Mock) (i : Nat) (d : PhysicalDeviceRecord)
    (h : d.properties.deviceType ≠ 5) :
    (Event.read Buffer.devices i :: (deviceBody m.toRuntime i d).1, (deviceBody m.toRuntime i d).2)
      = (deviceEvents i d, true) := by
  have hl := device_type_string_of_ne_five _ h
  rw [deviceBody_some m.toRuntime i d _ hl]
  simp [Mock.toRuntime, enumerateAndPrint_ofList, deviceEvents]

theorem forDevices_mock (m : Mock) (cap : Nat) :
    ∀ (ds : List PhysicalDeviceRecord) (i : Nat), i + ds.length ≤ cap →
      (∀ d ∈ ds, d.properties.deviceType ≠ 5) →
      forDevices m.toRuntime cap i ds = (devicesEvents i ds, true) := by
  intro ds
  induction ds with
  | nil => intro i _ _; rfl
  | cons d ds ih =>
    intro i hi ht
    have hi' : i < cap := by simp at hi; omega
    have hb := deviceBody_mock m i d (ht d (by simp))
    have hb1 : Event.read Buffer.devices i :: (deviceBody m.toRuntime i d).1 = deviceEvents i d :=
      congrArg Prod.fst hb
    have hb2 : (deviceBody m.toRuntime i d).2 = true := congrArg Prod.snd hb
    have hr := ih (i + 1) (by simp at hi; omega) (fun d' hd' => ht d' (by simp [hd']))
    rw [forDevices_cons]
    simp only [hi', hb2, if_true, hr, devicesEvents]
    rw [← hb1]

theorem vkinfo_mock_fail (m : Mock) (hc : m.createInstance = false) :
    vkinfo m.toRuntime =
      ⟨instanceEvents m ++ [Event.vkCreateInstance,
          Event.fprintf_stderr "ERROR vkCreateInstance() failed\n",
          Event.glfwTerminate], some 1⟩ := by
  rw [vkinfo_of_fail m.toRuntime (by rw [instanceExtensionsSection_mock])
    (by rw [instanceLayersSection_mock]) hc]
  simp only [instanceExtensionsSection_mock, instanceLayersSection_mock, instanceEvents]

theorem vkinfo_mock_ok (m : Mock) (hc : m.createInstance = true)
    (ht : ∀ d ∈ m.devices, d.properties.deviceType ≠ 5) :
    vkinfo m.toRuntime =
      ⟨instanceEvents m ++ [Event.vkCreateInstance]
        ++ devicesEnumerationEvents m.devices
        ++ [Event.vkDestroyInstance, Event.glfwTerminate], some 0⟩ := by
  have h4 : forDevices m.toRuntime m.toRuntime.physicalDevices.count 0
      (m.toRuntime.physicalDevices.fetch m.toRuntime.physicalDevices.count)
        = (devicesEvents 0 m.devices, true) := by
    have := forDevices_mock m m.devices.length m.devices 0 (by simp) ht
    simpa [Mock.toRuntime, Enumeration.ofList] using this
  rw [vkinfo_of_ok m.toRuntime (by rw [instanceExtensionsSection_mock])
    (by rw [instanceLayersSection_mock]) hc (by rw [h4])]
  simp only [instanceExtensionsSection_mock, instanceLayersSection_mock, instanceEvents, h4,
    devicesEnumerationEvents, devicesPrologue]
  simp [Mock.toRuntime, Enumeration.ofList]

/-! ## Lemmas on the expected events -/

theorem enumerationEvents_mem {α : Type} (b : Buffer) (xs : List α)
    (heading placeholder : String) (fmt : α → String) (e : Event)
    (h : e ∈ enumerationEvents b xs heading placeholder fmt) :
    (∃ s, e = Event.printf s) ∨ e = Event.enumerateCount b ∨
      e = Event.malloc b xs.length ∨ e = Event.enumerateFetch b xs.length ∨
      e = Event.free b ∨ ∃ j, e = Event.read b j ∧ j < xs.length := by
  have h' : e ∈ (enumerateAndPrint b (Enumeration.ofList xs) heading placeholder fmt).1 := by
    rw [enumerateAndPrint_ofList]; exact h
  rcases enumerateAndPrint_mem _ _ _ _ _ e h' with h | h | h | h | h | h
  · simp [h]
  · simp [h, Enumeration.ofList]
  · simp [h, Enumeration.ofList]
  · simp [h]
  · rcases h with ⟨j, hj, hlt⟩
    have hlt' : j < xs.length := by simpa [Enumeration.ofList] using hlt
    simp [hj, hlt']
  · exact Or.inl h

theorem enumerationEvents_buffer {α : Type} (b : Buffer) (xs : List α)
    (heading placeholder : String) (fmt : α → String) (e : Event)
    (h : e ∈ enumerationEvents b xs heading placeholder fmt) :
    (∃ s, e = Event.printf s) ∨ e.buffer = some b := by
  rcases enumerationEvents_mem b xs heading placeholder fmt e h with
    h | h | h | h | h | ⟨j, h, _⟩
  · exact Or.inl h
  all_goals exact Or.inr (by rw [h]; rfl)

theorem requiredSection_mem {H : Type} (rt : Runtime H) (e : Event)
    (h : e ∈ requiredSection rt) :
    e = Event.glfwInit ∨ e = Event.glfwGetRequiredInstanceExtensions ∨
      ∃ s, e = Event.printf s := by
  simp only [requiredSection, List.mem_append, List.mem_cons, List.mem_map,
    List.mem_singleton] at h
  rcases h with (((h | h | h | h) | h) | ⟨s, _, h⟩) | h
  · exact Or.inl h
  · simp [h]
  · simp [h]
  · simp at h
  · split at h
    · simp only [List.mem_singleton] at h
      simp [h]
    · simp at h
  · simp [h.symm]
  · rcases h with h | h
    · simp [h]
    · simp at h

theorem instanceEvents_mem (m : Mock) (e : Event) (h : e ∈ instanceEvents m) :
    e = Event.glfwInit ∨ e = Event.glfwGetRequiredInstanceExtensions ∨
      (∃ s, e = Event.printf s) ∨ e.buffer = some Buffer.available_extensions ∨
      e.buffer = some Buffer.available_layers := by
  simp only [instanceEvents, List.mem_append] at h
  rcases h with (h | h) | h
  · rcases requiredSection_mem _ e h with h | h | h
    · exact Or.inl h
    · simp [h]
    · simp [h]
  · rcases enumerationEvents_buffer _ _ _ _ _ e h with h | h
    · simp [h]
    · simp [h]
  · rcases enumerationEvents_buffer _ _ _ _ _ e h with h | h
    · simp [h]
    · simp [h]

theorem stderr_eq_nil (l : List Event) (h : ∀ e ∈ l, ∀ s, e ≠ Event.fprintf_stderr s) :
    stderr l = [] := by
  induction l with
  | nil => rfl
  | cons a l ih =>
    have h1 := h a (by simp)
    have h2 := ih (fun e he => h e (by simp [he]))
    simp only [stderr] at h2
    cases a <;> simp_all [stderr]

theorem instanceEvents_count (m : Mock) (e : Event)
    (h1 : e ≠ Event.glfwInit) (h2 : e ≠ Event.glfwGetRequiredInstanceExtensions)
    (h3 : ∀ s, e ≠ Event.printf s) (h4 : e.buffer = none) :
    (instanceEvents m).count e = 0 := by
  rw [List.count_eq_zero]
  intro he
  rcases instanceEvents_mem m e he with h | h | ⟨s, h⟩ | h | h
  · exact h1 h
  · exact h2 h
  · exact h3 s h
  · rw [h4] at h; cases h
  · rw [h4] at h; cases h

theorem stderr_instanceEvents (m : Mock) : stderr (instanceEvents m) = [] := by
  apply stderr_eq_nil
  intro e he s hs
  rcases instanceEvents_mem m e he with h | h | ⟨t, h⟩ | h | h <;> rw [hs] at h <;> cases h

theorem stdout_enumerationEvents {α : Type} (b : Buffer) (xs : List α)
    (heading placeholder : String) (fmt : α → String) :
    stdout (enumerationEvents b xs heading placeholder fmt) =
      [heading] ++ (if xs.length = 0 then [placeholder] else xs.map fmt) ++ ["\n"] := by
  simp only [enumerationEvents, stdout_append, stdout_recordEvents]
  cases xs with
  | nil => simp [stdout]
  | cons x xs => simp [stdout]

theorem stdout_requiredSection {H : Type} (rt : Runtime H) :
    stdout (requiredSection rt) =
      ["INSTANCE EXTENSIONS REQUIRED BY GLFW\n"]
        ++ (if rt.glfw_extensions.length = 0 then ["<none>\n"]
            else rt.glfw_extensions.map fun s => s ++ "\n")
        ++ ["\n"] := by
  have hm : ∀ l : List String,
      stdout (l.map fun s => Event.printf (s ++ "\n")) = l.map fun s => s ++ "\n" := by
    intro l
    induction l with
    | nil => rfl
    | cons a l ih =>
      simp only [stdout] at ih
      simp [stdout, ih]
  simp only [requiredSection, stdout_append, hm]
  cases rt.glfw_extensions with
  | nil => simp [stdout]
  | cons x xs => simp [stdout]

theorem unlines_referenceSection (heading placeholder : String) (items : List String) :
    unlines (referenceSection heading placeholder items) =
      [heading ++ "\n"]
        ++ (if items.length = 0 then [placeholder ++ "\n"] else unlines items) ++ ["\n"] := by
  cases items with
  | nil => simp [unlines, referenceSection]
  | cons x xs => simp [unlines, referenceSection]

theorem unlines_append (s t : List String) : unlines (s ++ t) = unlines s ++ unlines t := by
  simp [unlines]

theorem unlines_map {α : Type} (f g : α → String) (xs : List α)
    (h : ∀ x, f x = g x ++ "\n") : xs.map f = unlines (xs.map g) := by
  induction xs with
  | nil => rfl
  | cons x xs ih => simp [unlines, h] at ih ⊢

theorem map_fmt_extension (xs : List VkExtensionProperties) :
    xs.map fmt_extension = unlines (xs.map fun e =>
      e.extensionName ++ " (spec version " ++ toString e.specVersion ++ ")") :=
  unlines_map _ _ xs (fun e => by simp [fmt_extension, fmt_u, String.append_assoc])

theorem map_fmt_layer (xs : List VkLayerProperties) :
    xs.map fmt_layer = unlines (xs.map fun l =>
      l.layerName ++ " (spec version " ++ toString l.specVersion ++ "; version "
        ++ toString l.implementationVersion ++ "; " ++ l.description ++ ")") :=
  unlines_map _ _ xs (fun l => by simp [fmt_layer, fmt_u, String.append_assoc])

theorem map_fmt_device_extension (xs : List VkExtensionProperties) :
    xs.map fmt_device_extension = unlines (xs.map fun e =>
      "  " ++ e.extensionName ++ " (spec version " ++ toString e.specVersion ++ ")") :=
  unlines_map _ _ xs (fun e => by simp [fmt_device_extension, fmt_u, String.append_assoc])

theorem stdout_instanceEvents (m : Mock) :
    stdout (instanceEvents m) = unlines (referenceInstance m) := by
  simp only [instanceEvents, stdout_append, stdout_requiredSection, stdout_enumerationEvents,
    referenceInstance, unlines_append, unlines_referenceSection, List.length_map,
    map_fmt_extension, map_fmt_layer]
  simp [unlines, Mock.toRuntime]

theorem forDevices_onDevices {H : Type} (rt : Runtime H) (cap : Nat) (ds : List H) (i : Nat)
    (e : Event) (h : e ∈ (forDevices rt cap i ds).1) : e.onDevices := by
  rcases forDevices_mem rt cap e ds i h with ⟨j, hj, _, _⟩ | ⟨k, d, _, _, _, hk, _⟩
  · simp [Event.onDevices, hj, Event.buffer]
  · rcases deviceBody_mem rt k d e hk with h | h | h | h | h | h | ⟨j, h, _⟩
    · simp [Event.onDevices, h]
    · exact Or.inl h
    all_goals simp [Event.onDevices, h, Event.buffer]

theorem devicesPrologue_onDevices {H : Type} (rt : Runtime H) (e : Event)
    (h : e ∈ devicesPrologue rt) : e.onDevices := by
  simp only [devicesPrologue, List.mem_append, List.mem_cons] at h
  rcases h with (h | h | h | h) | h
  · simp [Event.onDevices, h, Event.buffer]
  · simp [Event.onDevices, h, Event.buffer]
  · simp [Event.onDevices, h, Event.buffer]
  · simp at h
  · split at h
    · simp only [List.mem_singleton] at h
      exact Or.inl ⟨_, h⟩
    · simp at h

theorem vkinfo_mock_created (m : Mock) (hc : m.createInstance = true) :
    ∃ post, (vkinfo m.toRuntime).trace = instanceEvents m ++ Event.vkCreateInstance :: post ∧
      ∀ e ∈ post, e.onDevices := by
  cases h4 : (forDevices m.toRuntime m.toRuntime.physicalDevices.count 0
      (m.toRuntime.physicalDevices.fetch m.toRuntime.physicalDevices.count)).2 with
  | false =>
    rw [vkinfo_of_fault m.toRuntime (by rw [instanceExtensionsSection_mock])
      (by rw [instanceLayersSection_mock]) hc h4]
    refine ⟨devicesPrologue m.toRuntime ++ (forDevices m.toRuntime
      m.toRuntime.physicalDevices.count 0
      (m.toRuntime.physicalDevices.fetch m.toRuntime.physicalDevices.count)).1, ?_, ?_⟩
    · simp [instanceExtensionsSection_mock, instanceLayersSection_mock, instanceEvents]
    · intro e he
      rcases List.mem_append.1 he with he | he
      · exact devicesPrologue_onDevices _ e he
      · exact forDevices_onDevices _ _ _ _ e he
  | true =>
    rw [vkinfo_of_ok m.toRuntime (by rw [instanceExtensionsSection_mock])
      (by rw [instanceLayersSection_mock]) hc h4]
    refine ⟨devicesPrologue m.toRuntime ++ (forDevices m.toRuntime
      m.toRuntime.physicalDevices.count 0
      (m.toRuntime.physicalDevices.fetch m.toRuntime.physicalDevices.count)).1
      ++ [Event.free Buffer.devices, Event.vkDestroyInstance, Event.glfwTerminate], ?_, ?_⟩
    · simp [instanceExtensionsSection_mock, instanceLayersSection_mock, instanceEvents]
    · intro e he
      rcases List.mem_append.1 he with he | he
      · rcases List.mem_append.1 he with he | he
        · exact devicesPrologue_onDevices _ e he
        · exact forDevices_onDevices _ _ _ _ e he
      · simp only [List.mem_cons, List.mem_singleton] at he
        rcases he with he | he | he | he
        · simp [Event.onDevices, he, Event.buffer]
        · simp [Event.onDevices, he]
        · simp [Event.onDevices, he]
        · simp at he

theorem instanceEvents_prologue_mem (m : Mock) :
    Event.glfwGetRequiredInstanceExtensions ∈ instanceEvents m ∧
      Event.enumerateFetch Buffer.available_extensions m.instanceExtensions.length
        ∈ instanceEvents m ∧
      Event.enumerateFetch Buffer.available_layers m.layers.length ∈ instanceEvents m := by
  simp [instanceEvents, requiredSection, enumerationEvents]

theorem stdout_deviceEvents (i : Nat) (d : PhysicalDeviceRecord) :
    stdout (deviceEvents i d) = unlines (referenceDevice d) := by
  simp only [deviceEvents, stdout_append, stdout_enumerationEvents, referenceDevice,
    unlines_append, unlines_referenceSection, List.length_map, map_fmt_device_extension]
  simp [unlines, stdout, deviceHeader, fmt_type, fmt_u, String.append_assoc]

theorem stdout_devicesEvents :
    ∀ (ds : List PhysicalDeviceRecord) (i : Nat),
      stdout (devicesEvents i ds) = unlines (ds.flatMap referenceDevice) := by
  intro ds
  induction ds with
  | nil => intro i; rfl
  | cons d ds ih =>
    intro i
    simp only [devicesEvents, stdout_append, stdout_deviceEvents, ih, List.flatMap_cons,
      unlines_append]

theorem stdout_devicesEnumerationEvents (ds : List PhysicalDeviceRecord) :
    stdout (devicesEnumerationEvents ds) =
      unlines (if ds.length = 0 then ["<no physical devices>"]
        else ds.flatMap referenceDevice) := by
  simp only [devicesEnumerationEvents, stdout_append, stdout_devicesEvents]
  cases ds with
  | nil => simp [stdout, unlines]
  | cons d ds => simp [stdout, unlines]

theorem stdout_vkinfo_mock_ok (m : Mock) (hc : m.createInstance = true)
    (ht : ∀ d ∈ m.devices, d.properties.deviceType ≠ 5) :
    stdout (vkinfo m.toRuntime).trace = unlines (reportWith "<no physical devices>" m) := by
  rw [vkinfo_mock_ok m hc ht]
  simp only [stdout_append, stdout_instanceEvents, stdout_devicesEnumerationEvents, reportWith,
    unlines_append]
  simp [stdout]

theorem devicesEvents_append :
    ∀ (l₁ l₂ : List PhysicalDeviceRecord) (k : Nat),
      devicesEvents k (l₁ ++ l₂) = devicesEvents k l₁ ++ devicesEvents (k + l₁.length) l₂ := by
  intro l₁
  induction l₁ with
  | nil => intro l₂ k; simp [devicesEvents]
  | cons d l₁ ih =>
    intro l₂ k
    have hk : k + 1 + l₁.length = k + (l₁.length + 1) := by omega
    show devicesEvents k (d :: (l₁ ++ l₂)) = _
    simp only [devicesEvents, ih, List.length_cons, List.append_assoc, hk]

theorem devicesEvents_split (l₁ : List PhysicalDeviceRecord) (d : PhysicalDeviceRecord)
    (l₂ : List PhysicalDeviceRecord) :
    devicesEvents 0 (l₁ ++ d :: l₂) =
      devicesEvents 0 l₁ ++ deviceEvents l₁.length d ++ devicesEvents (l₁.length + 1) l₂ := by
  rw [devicesEvents_append]
  simp [devicesEvents]

theorem deviceEvents_mem (i : Nat) (d : PhysicalDeviceRecord) (e : Event)
    (h : e ∈ deviceEvents i d) :
    e = Event.read Buffer.devices i ∨ e = Event.vkGetPhysicalDeviceProperties i ∨
      (∃ s, e = Event.printf s) ∨ e.buffer = some (Buffer.device_extensions i) := by
  simp only [deviceEvents, List.mem_append, List.mem_cons, List.mem_singleton] at h
  rcases h with (((h | h) | h) | h | h | h) | h
  · exact Or.inl h
  · simp at h
  · rcases deviceHeader_mem _ _ e h with h | h
    · simp [h]
    · simp [h]
  · simp [h]
  · simp [h]
  · simp at h
  · rcases enumerationEvents_buffer _ _ _ _ _ e h with h | h
    · simp [h]
    · simp [h]

theorem devicesEvents_mem (e : Event) :
    ∀ (ds : List PhysicalDeviceRecord) (k : Nat), e ∈ devicesEvents k ds →
      ∃ i d, k ≤ i ∧ i < k + ds.length ∧ d ∈ ds ∧ e ∈ deviceEvents i d := by
  intro ds
  induction ds with
  | nil => intro k h; simp [devicesEvents] at h
  | cons d ds ih =>
    intro k h
    simp only [devicesEvents, List.mem_append] at h
    rcases h with h | h
    · exact ⟨k, d, le_refl _, by simp, by simp, h⟩
    · obtain ⟨i, d', h1, h2, h3, h4⟩ := ih (k + 1) h
      exact ⟨i, d', by omega, by simp; omega, by simp [h3], h4⟩

theorem devicesEvents_onDevices (e : Event) (ds : List PhysicalDeviceRecord) (k : Nat)
    (h : e ∈ devicesEvents k ds) :
    (∃ s, e = Event.printf s) ∨
      ∃ i, k ≤ i ∧ i < k + ds.length ∧
        (e = Event.read Buffer.devices i ∨ e = Event.vkGetPhysicalDeviceProperties i ∨
          e.buffer = some (Buffer.device_extensions i)) := by
  obtain ⟨i, d, h1, h2, _, h4⟩ := devicesEvents_mem e ds k h
  rcases deviceEvents_mem i d e h4 with h | h | h | h
  · exact Or.inr ⟨i, h1, h2, Or.inl h⟩
  · exact Or.inr ⟨i, h1, h2, Or.inr (Or.inl h)⟩
  · exact Or.inl h
  · exact Or.inr ⟨i, h1, h2, Or.inr (Or.inr h)⟩

theorem stdout_vkinfo_mock (m : Mock) :
    ∃ rest, stdout (vkinfo m.toRuntime).trace = unlines (referenceInstance m) ++ rest := by
  cases hc : m.createInstance with
  | false =>
    rw [vkinfo_mock_fail m hc, stdout_append, stdout_instanceEvents]
    exact ⟨_, rfl⟩
  | true =>
    obtain ⟨post, hpost, _⟩ := vkinfo_mock_created m hc
    rw [hpost, stdout_append, stdout_instanceEvents]
    exact ⟨_, rfl⟩

theorem vkinfo_mock_split (m : Mock) :
    ∃ post, (vkinfo m.toRuntime).trace = instanceEvents m ++ Event.vkCreateInstance :: post ∧
      ∀ e ∈ post, e.onDevices ∨ ∃ s, e = Event.fprintf_stderr s := by
  cases hc : m.createInstance with
  | false =>
    rw [vkinfo_mock_fail m hc]
    refine ⟨_, rfl, ?_⟩
    intro e he
    simp only [List.mem_cons, List.mem_singleton] at he
    rcases he with he | he | he
    · exact Or.inr ⟨_, he⟩
    · simp [Event.onDevices, he]
    · simp at he
  | true =>
    obtain ⟨post, hpost, hon⟩ := vkinfo_mock_created m hc
    exact ⟨post, hpost, fun e he => Or.inl (hon e he)⟩

theorem onDevices_buffer (e : Event) (h : e.onDevices ∨ ∃ s, e = Event.fprintf_stderr s) :
    e.buffer ≠ some Buffer.available_extensions ∧ e.buffer ≠ some Buffer.available_layers := by
  rcases h with (⟨s, h⟩ | ⟨k, h⟩ | h | ⟨k, h⟩ | h | h) | ⟨s, h⟩
  · subst h; simp [Event.buffer]
  · subst h; simp [Event.buffer]
  · simp [h]
  · simp [h]
  · subst h; simp [Event.buffer]
  · subst h; simp [Event.buffer]
  · subst h; simp [Event.buffer]

theorem read_mem_enumerationEvents {α : Type} (b b' : Buffer) (xs : List α)
    (heading placeholder : String) (fmt : α → String) (j : Nat)
    (h : Event.read b' j ∈ enumerationEvents b xs heading placeholder fmt) :
    b' = b ∧ j < xs.length := by
  rcases enumerationEvents_mem b xs heading placeholder fmt _ h with
    ⟨s, h⟩ | h | h | h | h | ⟨i, h, hi⟩
  · cases h
  · cases h
  · cases h
  · cases h
  · cases h
  · cases h
    exact ⟨rfl, hi⟩

theorem read_mem_deviceEvents (i : Nat) (d : PhysicalDeviceRecord) (b : Buffer) (j : Nat)
    (h : Event.read b j ∈ deviceEvents i d) :
    (b = Buffer.devices ∧ j = i) ∨ (b = Buffer.device_extensions i ∧ j < d.extensions.length) := by
  simp only [deviceEvents, deviceHeader, List.mem_append, List.mem_cons, List.mem_singleton] at h
  rcases h with (((h | h) | h) | h | h | h) | h
  · cases h; exact Or.inl ⟨rfl, rfl⟩
  · simp at h
  · simp at h
  · cases h
  · cases h
  · simp at h
  · exact Or.inr (read_mem_enumerationEvents _ _ _ _ _ _ _ h)

theorem read_mem_instanceEvents (m : Mock) (b : Buffer) (j : Nat)
    (h : Event.read b j ∈ instanceEvents m) :
    (b = Buffer.available_extensions ∧ j < m.instanceExtensions.length) ∨
      (b = Buffer.available_layers ∧ j < m.layers.length) := by
  simp only [instanceEvents, List.mem_append] at h
  rcases h with (h | h) | h
  · rcases requiredSection_mem _ _ h with h | h | ⟨s, h⟩ <;> cases h
  · exact Or.inl (read_mem_enumerationEvents _ _ _ _ _ _ _ h)
  · exact Or.inr (read_mem_enumerationEvents _ _ _ _ _ _ _ h)

theorem mem_placeholder {c : Prop} [Decidable c] {e a : Event}
    (h : e ∈ (if c then [a] else [])) : e = a := by
  split at h
  · simpa using h
  · simp at h

theorem read_mem_devicesEvents (b : Buffer) (j : Nat) :
    ∀ (ds : List PhysicalDeviceRecord) (k : Nat), Event.read b j ∈ devicesEvents k ds →
      ∃ l₁ d l₂, ds = l₁ ++ d :: l₂ ∧
        ((b = Buffer.devices ∧ j = k + l₁.length) ∨
          (b = Buffer.device_extensions (k + l₁.length) ∧ j < d.extensions.length)) := by
  intro ds
  induction ds with
  | nil => intro k h; simp [devicesEvents] at h
  | cons d ds ih =>
    intro k h
    simp only [devicesEvents, List.mem_append] at h
    rcases h with h | h
    · refine ⟨[], d, ds, rfl, ?_⟩
      simpa using read_mem_deviceEvents _ _ _ _ h
    · obtain ⟨l₁, d', l₂, hl, h'⟩ := ih (k + 1) h
      refine ⟨d :: l₁, d', l₂, by simp [hl], ?_⟩
      have hk : k + 1 + l₁.length = k + (d :: l₁).length := by simp; omega
      rw [hk] at h'
      exact h'

theorem read_mem_devicesEnumerationEvents (b : Buffer) (j : Nat)
    (ds : List PhysicalDeviceRecord) (h : Event.read b j ∈ devicesEnumerationEvents ds) :
    ∃ l₁ d l₂, ds = l₁ ++ d :: l₂ ∧
      ((b = Buffer.devices ∧ j = l₁.length) ∨
        (b = Buffer.device_extensions l₁.length ∧ j < d.extensions.length)) := by
  simp only [devicesEnumerationEvents, List.mem_append] at h
  rcases h with ((h | h) | h) | h
  · simp at h
  · cases mem_placeholder h
  · simpa using read_mem_devicesEvents b j ds 0 h
  · simp at h

theorem read_mem_vkinfo_mock_ok (m : Mock) (hc : m.createInstance = true)
    (ht : ∀ d ∈ m.devices, d.properties.deviceType ≠ 5) (b : Buffer) (j : Nat)
    (h : Event.read b j ∈ (vkinfo m.toRuntime).trace) :
    (b = Buffer.available_extensions ∧ j < m.instanceExtensions.length) ∨
      (b = Buffer.available_layers ∧ j < m.layers.length) ∨
      ∃ l₁ d l₂, m.devices = l₁ ++ d :: l₂ ∧
        ((b = Buffer.devices ∧ j = l₁.length) ∨
          (b = Buffer.device_extensions l₁.length ∧ j < d.extensions.length)) := by
  rw [vkinfo_mock_ok m hc ht] at h
  simp only [List.mem_append] at h
  rcases h with ((h | h) | h) | h
  · rcases read_mem_instanceEvents m b j h with h | h
    · exact Or.inl h
    · simp [h]
  · simp at h
  · exact Or.inr (Or.inr (read_mem_devicesEnumerationEvents b j _ h))
  · simp at h

theorem decomposition_unique {α : Type} {l₁ l₁' l₂ l₂' : List α} {d d' : α}
    (h : l₁ ++ d :: l₂ = l₁' ++ d' :: l₂') (hl : l₁.length = l₁'.length) : d = d' := by
  have := (List.append_inj h hl).2
  simpa using (List.cons.inj this).1

theorem devicesEvents_buffer (e : Event) (ds : List PhysicalDeviceRecord) (k i : Nat)
    (h : e ∈ devicesEvents k ds) (hb : e.buffer = some (Buffer.device_extensions i)) :
    k ≤ i ∧ i < k + ds.length := by
  rcases devicesEvents_onDevices e ds k h with ⟨s, h⟩ | ⟨i', h1, h2, h | h | h⟩
  · subst h; cases hb
  · subst h; cases hb
  · subst h; cases hb
  · rw [h] at hb
    cases hb
    exact ⟨h1, h2⟩

theorem instanceEvents_buffer (m : Mock) (e : Event) (h : e ∈ instanceEvents m) :
    e.buffer = none ∨ e.buffer = some Buffer.available_extensions ∨
      e.buffer = some Buffer.available_layers := by
  rcases instanceEvents_mem m e h with h | h | ⟨s, h⟩ | h | h
  · subst h; exact Or.inl rfl
  · subst h; exact Or.inl rfl
  · subst h; exact Or.inl rfl
  · simp [h]
  · simp [h]

/-! ## The blocks of a run -/

/-- For a mock runtime whose collection holds `n` elements, the events of the
run about that collection are one contiguous block: one count call, one
`malloc` for `n` elements, one fetch call with capacity `n`, then one record
per element, in the order of the mock, each read at its index, and `free`; no
other event of the run is about that buffer.  This holds in every run for the
extensions and the layers of the instance; for the physical devices, and for
the extensions of each device, it holds when instance creation succeeds and no
device reports the type code 5. -/
theorem vkinfo_mock_blocks (m : Mock) :
    (∃ pre post, (vkinfo m.toRuntime).trace =
        pre ++ enumerationEvents Buffer.available_extensions m.instanceExtensions
          "INSTANCE EXTENSIONS AVAILABLE\n" "<none>\n" fmt_extension ++ post ∧
      ∀ e ∈ pre ++ post, e.buffer ≠ some Buffer.available_extensions) ∧
    (∃ pre post, (vkinfo m.toRuntime).trace =
        pre ++ enumerationEvents Buffer.available_layers m.layers
          "LAYERS AVAILABLE\n" "<none>\n" fmt_layer ++ post ∧
      ∀ e ∈ pre ++ post, e.buffer ≠ some Buffer.available_layers) ∧
    (m.createInstance = true → (∀ d ∈ m.devices, d.properties.deviceType ≠ 5) →
      (∃ pre post, (vkinfo m.toRuntime).trace =
          pre ++ devicesEnumerationEvents m.devices ++ post ∧
        ∀ e ∈ pre ++ post, e.buffer ≠ some Buffer.devices) ∧
      ∀ l₁ d l₂, m.devices = l₁ ++ d :: l₂ →
        ∃ pre post, (vkinfo m.toRuntime).trace =
            pre ++ enumerationEvents (Buffer.device_extensions l₁.length) d.extensions
              "  Extensions:\n" "  <none>\n" fmt_device_extension ++ post ∧
          ∀ e ∈ pre ++ post, e.buffer ≠ some (Buffer.device_extensions l₁.length)) := by
  obtain ⟨post, hpost, hon⟩ := vkinfo_mock_split m
  refine ⟨?_, ?_, ?_⟩
  · refine ⟨requiredSection m.toRuntime,
      enumerationEvents Buffer.available_layers m.layers "LAYERS AVAILABLE\n" "<none>\n"
        fmt_layer ++ Event.vkCreateInstance :: post, ?_, ?_⟩
    · rw [hpost]; simp [instanceEvents]
    · intro e he
      simp only [List.mem_append, List.mem_cons] at he
      rcases he with he | he | he | he
      · rcases requiredSection_mem _ e he with h | h | ⟨s, h⟩ <;> subst h <;> simp [Event.buffer]
      · rcases enumerationEvents_buffer _ _ _ _ _ e he with ⟨s, h⟩ | h
        · subst h; simp [Event.buffer]
        · simp [h]
      · subst he; simp [Event.buffer]
      · exact (onDevices_buffer e (hon e he)).1
  · refine ⟨requiredSection m.toRuntime ++
      enumerationEvents Buffer.available_extensions m.instanceExtensions
        "INSTANCE EXTENSIONS AVAILABLE\n" "<none>\n" fmt_extension,
      Event.vkCreateInstance :: post, ?_, ?_⟩
    · rw [hpost]; simp [instanceEvents]
    · intro e he
      simp only [List.mem_append, List.mem_cons] at he
      rcases he with (he | he) | he | he
      · rcases requiredSection_mem _ e he with h | h | ⟨s, h⟩ <;> subst h <;> simp [Event.buffer]
      · rcases enumerationEvents_buffer _ _ _ _ _ e he with ⟨s, h⟩ | h
        · subst h; simp [Event.buffer]
        · simp [h]
      · subst he; simp [Event.buffer]
      · exact (onDevices_buffer e (hon e he)).2
  · intro hc ht
    refine ⟨?_, ?_⟩
    · refine ⟨instanceEvents m ++ [Event.vkCreateInstance],
        [Event.vkDestroyInstance, Event.glfwTerminate], ?_, ?_⟩
      · rw [vkinfo_mock_ok m hc ht]
      · intro e he
        simp only [List.mem_append, List.mem_cons, List.mem_singleton] at he
        rcases he with (he | he | he) | he | he | he
        · rcases instanceEvents_buffer m e he with h | h | h <;> simp [h]
        · subst he; simp [Event.buffer]
        · simp at he
        · subst he; simp [Event.buffer]
        · subst he; simp [Event.buffer]
        · simp at he
    · intro l₁ d l₂ hl
      refine ⟨instanceEvents m ++ [Event.vkCreateInstance]
          ++ ([Event.enumerateCount Buffer.devices, Event.malloc Buffer.devices m.devices.length,
              Event.enumerateFetch Buffer.devices m.devices.length]
            ++ (if m.devices.length = 0 then [Event.printf "<no physical devices>\n"] else []))
          ++ devicesEvents 0 l₁
          ++ ([Event.read Buffer.devices l₁.length] ++ deviceHeader l₁.length d.properties
            ++ [Event.printf (fmt_type d.properties.deviceType
                  (classify d.properties.deviceType)), Event.printf "\n"]),
        devicesEvents (l₁.length + 1) l₂
          ++ [Event.free Buffer.devices, Event.vkDestroyInstance, Event.glfwTerminate], ?_, ?_⟩
      · rw [vkinfo_mock_ok m hc ht]
        simp only [devicesEnumerationEvents]
        rw [show devicesEvents 0 m.devices = devicesEvents 0 (l₁ ++ d :: l₂) by rw [hl],
          devicesEvents_split]
        simp [deviceEvents]
      · intro e he
        rcases List.mem_append.1 he with he | he
        · rcases List.mem_append.1 he with he | he
          · rcases List.mem_append.1 he with he | he
            · rcases List.mem_append.1 he with he | he
              · rcases List.mem_append.1 he with he | he
                · rcases instanceEvents_buffer m e he with h | h | h <;> simp [h]
                · simp only [List.mem_singleton] at he
                  subst he; simp [Event.buffer]
              · rcases List.mem_append.1 he with he | he
                · simp only [List.mem_cons, List.mem_singleton] at he
                  rcases he with he | he | he | he
                  · subst he; simp [Event.buffer]
                  · subst he; simp [Event.buffer]
                  · subst he; simp [Event.buffer]
                  · simp at he
                · rw [mem_placeholder he]; simp [Event.buffer]
            · intro hb
              have := devicesEvents_buffer e l₁ 0 _ he hb
              omega
          · rcases List.mem_append.1 he with he | he
            · rcases List.mem_append.1 he with he | he
              · simp only [List.mem_singleton] at he
                subst he; simp [Event.buffer]
              · rcases deviceHeader_mem _ _ e he with h | ⟨s, h⟩ <;> subst h <;>
                  simp [Event.buffer]
            · simp only [List.mem_cons, List.mem_singleton] at he
              rcases he with he | he | he
              · subst he; simp [Event.buffer]
              · subst he; simp [Event.buffer]
              · simp at he
        · rcases List.mem_append.1 he with he | he
          · intro hb
            have := devicesEvents_buffer e l₂ (l₁.length + 1) _ he hb
            omega
          · simp only [List.mem_cons, List.mem_singleton] at he
            rcases he with he | he | he | he
            · subst he; simp [Event.buffer]
            · subst he; simp [Event.buffer]
            · subst he; simp [Event.buffer]
            · simp at he

/-! ## Lemmas on the block of an enumeration -/

theorem count_block (pre seg post : List Event) (e : Event) (b : Buffer)
    (he : e.buffer = some b) (h : ∀ x ∈ pre ++ post, x.buffer ≠ some b) :
    (pre ++ seg ++ post).count e = seg.count e := by
  have h1 : pre.count e = 0 :=
    List.count_eq_zero.2 fun hx => h e (List.mem_append.2 (Or.inl hx)) he
  have h2 : post.count e = 0 :=
    List.count_eq_zero.2 fun hx => h e (List.mem_append.2 (Or.inr hx)) he
  simp [List.count_append, h1, h2]

theorem mem_block (pre seg post : List Event) (e : Event) (b : Buffer)
    (he : e.buffer = some b) (h : ∀ x ∈ pre ++ post, x.buffer ≠ some b)
    (hm : e ∈ pre ++ seg ++ post) : e ∈ seg := by
  rcases List.mem_append.1 hm with hm | hm
  · rcases List.mem_append.1 hm with hm | hm
    · exact absurd he (h e (List.mem_append.2 (Or.inl hm)))
    · exact hm
  · exact absurd he (h e (List.mem_append.2 (Or.inr hm)))

theorem count_recordEvents {α : Type} (b : Buffer) (fmt : α → String) (e : Event)
    (h1 : ∀ j, e ≠ Event.read b j) (h2 : ∀ s, e ≠ Event.printf s) :
    ∀ (xs : List α) (i : Nat), (recordEvents b fmt i xs).count e = 0 := by
  intro xs
  induction xs with
  | nil => intro i; rfl
  | cons x xs ih =>
    intro i
    have e1 : (Event.read b i == e) = false := by
      simpa using fun h => h1 i h.symm
    have e2 : (Event.printf (fmt x) == e) = false := by
      simpa using fun h => h2 (fmt x) h.symm
    simp [recordEvents, List.count_cons, ih, e1, e2]

theorem count_enumerationEvents {α : Type} (b : Buffer) (xs : List α)
    (heading placeholder : String) (fmt : α → String) :
    (enumerationEvents b xs heading placeholder fmt).count (Event.malloc b xs.length) = 1 ∧
      (enumerationEvents b xs heading placeholder fmt).count
        (Event.enumerateFetch b xs.length) = 1 := by
  have hp : ∀ e, (∀ s, e ≠ Event.printf s) →
      (if xs.length = 0 then [Event.printf placeholder] else []).count e = 0 := by
    intro e he
    split
    · have : (Event.printf placeholder == e) = false := by
        simpa using fun h => he placeholder h.symm
      simp [List.count_cons, this]
    · rfl
  have r1 := count_recordEvents b fmt (Event.malloc b xs.length) (by simp) (by simp) xs 0
  have r2 := count_recordEvents b fmt (Event.enumerateFetch b xs.length) (by simp) (by simp) xs 0
  have p1 := hp (Event.malloc b xs.length) (by simp)
  have p2 := hp (Event.enumerateFetch b xs.length) (by simp)
  constructor
  · simp [enumerationEvents, List.count_append, List.count_cons, r1, p1]
  · simp [enumerationEvents, List.count_append, List.count_cons, r2, p2]

/-- What a run does about a buffer whose events form one block of the trace:
`malloc` is called exactly once for it, for as many elements as the collection
holds, the fetch call is made exactly once, with that capacity, and the
elements read lie below that number. -/
theorem block_facts {α : Type} (t pre post : List Event) (b : Buffer) (xs : List α)
    (heading placeholder : String) (fmt : α → String)
    (ht : t = pre ++ enumerationEvents b xs heading placeholder fmt ++ post)
    (hb : ∀ e ∈ pre ++ post, e.buffer ≠ some b) :
    t.count (Event.malloc b xs.length) = 1 ∧
      t.count (Event.enumerateFetch b xs.length) = 1 ∧
      (∀ n, Event.malloc b n ∈ t → n = xs.length) ∧
      (∀ n, Event.enumerateFetch b n ∈ t → n = xs.length) ∧
      ∀ j, Event.read b j ∈ t → j < xs.length := by
  subst ht
  refine ⟨?_, ?_, ?_, ?_, ?_⟩
  · rw [count_block pre _ post (Event.malloc b xs.length) b rfl hb]
    exact (count_enumerationEvents b xs heading placeholder fmt).1
  · rw [count_block pre _ post (Event.enumerateFetch b xs.length) b rfl hb]
    exact (count_enumerationEvents b xs heading placeholder fmt).2
  · intro n hn
    have := mem_block pre _ post (Event.malloc b n) b rfl hb hn
    rcases enumerationEvents_mem _ _ _ _ _ _ this with ⟨s, h⟩ | h | h | h | h | ⟨j, h, _⟩ <;>
      cases h
    rfl
  · intro n hn
    have := mem_block pre _ post (Event.enumerateFetch b n) b rfl hb hn
    rcases enumerationEvents_mem _ _ _ _ _ _ this with ⟨s, h⟩ | h | h | h | h | ⟨j, h, _⟩ <;>
      cases h
    rfl
  · intro j hj
    have := mem_block pre _ post (Event.read b j) b rfl hb hj
    exact (read_mem_enumerationEvents _ _ _ _ _ _ _ this).2

theorem count_devicesEvents (e : Event) (h1 : ∀ s, e ≠ Event.printf s)
    (h2 : e.buffer = some Buffer.devices) (h3 : ∀ j, e ≠ Event.read Buffer.devices j)
    (ds : List PhysicalDeviceRecord) (k : Nat) : (devicesEvents k ds).count e = 0 := by
  rw [List.count_eq_zero]
  intro he
  rcases devicesEvents_onDevices e ds k he with ⟨s, h⟩ | ⟨i, _, _, h | h | h⟩
  · exact h1 s h
  · exact h3 i h
  · rw [h] at h2; cases h2
  · rw [h] at h2; cases h2

/-- The block of the device enumeration: `malloc` is called exactly once for
`devices`, for as many handles as the mock has devices, the fetch call is made
exactly once, with that capacity, and the handles read lie below that
number. -/
theorem devices_block_facts (t pre post : List Event) (ds : List PhysicalDeviceRecord)
    (ht : t = pre ++ devicesEnumerationEvents ds ++ post)
    (hb : ∀ e ∈ pre ++ post, e.buffer ≠ some Buffer.devices) :
    t.count (Event.malloc Buffer.devices ds.length) = 1 ∧
      t.count (Event.enumerateFetch Buffer.devices ds.length) = 1 ∧
      (∀ n, Event.malloc Buffer.devices n ∈ t → n = ds.length) ∧
      (∀ n, Event.enumerateFetch Buffer.devices n ∈ t → n = ds.length) ∧
      ∀ j, Event.read Buffer.devices j ∈ t → j < ds.length := by
  subst ht
  have hp : ∀ e, (∀ s, e ≠ Event.printf s) →
      (if ds.length = 0 then [Event.printf "<no physical devices>\n"] else []).count e = 0 := by
    intro e he
    split
    · have : (Event.printf "<no physical devices>\n" == e) = false := by
        simpa using fun h => he _ h.symm
      simp [List.count_cons, this]
    · rfl
  have hmem : ∀ e, e.buffer = some Buffer.devices → (∀ j, e ≠ Event.read Buffer.devices j) →
      e ∈ devicesEnumerationEvents ds →
      e = Event.enumerateCount Buffer.devices ∨ e = Event.malloc Buffer.devices ds.length ∨
        e = Event.enumerateFetch Buffer.devices ds.length ∨ e = Event.free Buffer.devices := by
    intro e he1 he2 he
    simp only [devicesEnumerationEvents, List.mem_append, List.mem_cons,
      List.mem_singleton] at he
    rcases he with ((he | he) | he) | he
    · rcases he with he | he | he | he
      · exact Or.inl he
      · exact Or.inr (Or.inl he)
      · simp [he]
      · simp at he
    · rw [mem_placeholder he] at he1; cases he1
    · rcases devicesEvents_onDevices e ds 0 he with ⟨s, h⟩ | ⟨i, _, _, h | h | h⟩
      · rw [h] at he1; cases he1
      · exact absurd h (he2 i)
      · rw [h] at he1; cases he1
      · rw [h] at he1; cases he1
    · rcases he with he | he
      · simp [he]
      · simp at he
  refine ⟨?_, ?_, ?_, ?_, ?_⟩
  · rw [count_block pre _ post (Event.malloc Buffer.devices ds.length) _ rfl hb]
    simp only [devicesEnumerationEvents, List.count_append,
      count_devicesEvents (Event.malloc Buffer.devices ds.length) (by simp) rfl (by simp),
      hp (Event.malloc Buffer.devices ds.length) (by simp)]
    simp [List.count_cons]
  · rw [count_block pre _ post (Event.enumerateFetch Buffer.devices ds.length) _ rfl hb]
    simp only [devicesEnumerationEvents, List.count_append,
      count_devicesEvents (Event.enumerateFetch Buffer.devices ds.length) (by simp) rfl
        (by simp),
      hp (Event.enumerateFetch Buffer.devices ds.length) (by simp)]
    simp [List.count_cons]
  · intro n hn
    have := mem_block pre _ post (Event.malloc Buffer.devices n) _ rfl hb hn
    rcases hmem (Event.malloc Buffer.devices n) rfl (by simp) this with h | h | h | h <;>
      cases h
    rfl
  · intro n hn
    have := mem_block pre _ post (Event.enumerateFetch Buffer.devices n) _ rfl hb hn
    rcases hmem (Event.enumerateFetch Buffer.devices n) rfl (by simp) this with
      h | h | h | h <;> cases h
    rfl
  · intro j hj
    have := mem_block pre _ post (Event.read Buffer.devices j) _ rfl hb hj
    obtain ⟨l₁, d, l₂, hl, h | h⟩ := read_mem_devicesEnumerationEvents _ _ _ this
    · rw [hl, h.2]; simp
    · cases h.1

/-! ## Claims on the classifier -/

/-- C1 (the code at the failing input): for the first past-end code 5 the
guard of line 36 does not fire, so line 39 reads `strings[5]`, an index outside
the 5 entries of the table, and no label is returned. -/
theorem device_type_string_past_end :
    device_type_guard 5 = false ∧ device_type_index 5 = some 5 ∧ strings.length = 5 ∧
      device_type_string 5 = none := by
  decide

/-- Every code that is negative or greater than 5 gets the label "unknown"
without a read of the table. -/
theorem device_type_string_outside (type : Int) (h : type < 0 ∨ 5 < type) :
    device_type_index type = none ∧ device_type_string type = some "unknown" := by
  have hg : device_type_guard type = true := by
    rcases h with h | h <;> simp [device_type_guard, strings, h]
  simp [device_type_string, device_type_index, hg]

/-- C2: each of the five known device-type codes gets its documented label:
0 "other", 1 "integrated GPU", 2 "discrete GPU", 3 "virtual GPU", 4 "CPU". -/
theorem device_type_string_known :
    device_type_string 0 = some "other" ∧
    device_type_string 1 = some "integrated GPU" ∧
    device_type_string 2 = some "discrete GPU" ∧
    device_type_string 3 = some "virtual GPU" ∧
    device_type_string 4 = some "CPU" := by
  decide

/-! ## Claims on the failure path -/

/-- C4: for every mock runtime in which instance creation fails, the run
returns exit status 1, calls `glfwTerminate` exactly once, as its last step,
never calls `vkDestroyInstance`, and writes exactly the fixed diagnostic to the
error stream. -/
theorem vkinfo_creation_failure (m : Mock) (h : m.createInstance = false) :
    (vkinfo m.toRuntime).exit = some 1 ∧
    (vkinfo m.toRuntime).trace.count Event.glfwTerminate = 1 ∧
    (vkinfo m.toRuntime).trace.getLast? = some Event.glfwTerminate ∧
    (vkinfo m.toRuntime).trace.count Event.vkDestroyInstance = 0 ∧
    stderr (vkinfo m.toRuntime).trace = ["ERROR vkCreateInstance() failed\n"] := by
  rw [vkinfo_mock_fail m h]
  refine ⟨rfl, ?_, ?_, ?_, ?_⟩
  · simp [List.count_append, instanceEvents_count m Event.glfwTerminate
      (by simp) (by simp) (by simp) rfl, List.count_cons]
  · simp [List.getLast?_append]
  · simp [List.count_append, instanceEvents_count m Event.vkDestroyInstance
      (by simp) (by simp) (by simp) rfl, List.count_cons]
  · simp [stderr_append, stderr_instanceEvents]
    simp [stderr]

/-! ## Claims on the order of the calls -/

/-- C9 (counterexample): in the run of the mock `creationFails`, whose instance
creation fails, the call `vkCreateInstance` comes after the instance
extensions and the layers have been enumerated, and both sections are on
standard output although the run ends with exit status 1. -/
theorem create_before_enumeration_counterexample :
    ∃ pre post, (vkinfo creationFails.toRuntime).trace = pre ++ Event.vkCreateInstance :: post ∧
      (vkinfo creationFails.toRuntime).exit = some 1 ∧
      Event.enumerateCount Buffer.available_extensions ∈ pre ∧
      Event.enumerateFetch Buffer.available_extensions 1 ∈ pre ∧
      Event.enumerateCount Buffer.available_layers ∈ pre ∧
      Event.enumerateFetch Buffer.available_layers 1 ∈ pre ∧
      stdout (vkinfo creationFails.toRuntime).trace =
        ["INSTANCE EXTENSIONS REQUIRED BY GLFW\n", "VK_KHR_surface\n", "\n",
         "INSTANCE EXTENSIONS AVAILABLE\n", "VK_KHR_surface (spec version 25)\n", "\n",
         "LAYERS AVAILABLE\n", "VK_LAYER_x (spec version 1; version 2; validation)\n",
         "\n"] :=
  ⟨(vkinfo creationFails.toRuntime).trace.take 21, (vkinfo creationFails.toRuntime).trace.drop 22,
    by decide, by decide, by decide, by decide, by decide, by decide, by decide⟩

/-- C9 (amended): in every run, `vkCreateInstance` is called once the required
extensions are gathered and the instance extensions and the layers have been
enumerated and printed; nothing about physical devices happens before it and
nothing about the instance-level collections after it.  When instance
creation fails, the three instance-level sections are already on standard
output and all that follows is the diagnostic and `glfwTerminate`: no device
is enumerated or printed. -/
theorem create_after_instance_sections (m : Mock) :
    ∃ pre post, (vkinfo m.toRuntime).trace = pre ++ Event.vkCreateInstance :: post ∧
      Event.glfwGetRequiredInstanceExtensions ∈ pre ∧
      Event.enumerateFetch Buffer.available_extensions m.instanceExtensions.length ∈ pre ∧
      Event.enumerateFetch Buffer.available_layers m.layers.length ∈ pre ∧
      stdout pre = unlines (referenceInstance m) ∧
      (∀ e ∈ pre, e ≠ Event.vkCreateInstance ∧ e.buffer ≠ some Buffer.devices ∧
        ∀ i, e.buffer ≠ some (Buffer.device_extensions i) ∧
          e ≠ Event.vkGetPhysicalDeviceProperties i) ∧
      (∀ e ∈ post, e ≠ Event.vkCreateInstance ∧
        e ≠ Event.glfwGetRequiredInstanceExtensions ∧
        e.buffer ≠ some Buffer.available_extensions ∧
        e.buffer ≠ some Buffer.available_layers) ∧
      (m.createInstance = false →
        post = [Event.fprintf_stderr "ERROR vkCreateInstance() failed\n", Event.glfwTerminate]) := by
  have hpre : ∀ e ∈ instanceEvents m, e ≠ Event.vkCreateInstance ∧
      e.buffer ≠ some Buffer.devices ∧
      ∀ i, e.buffer ≠ some (Buffer.device_extensions i) ∧
        e ≠ Event.vkGetPhysicalDeviceProperties i := by
    intro e he
    rcases instanceEvents_mem m e he with h | h | ⟨s, h⟩ | h | h
    · subst h; simp [Event.buffer]
    · subst h; simp [Event.buffer]
    · subst h; simp [Event.buffer]
    · refine ⟨?_, by simp [h], fun i => ⟨by simp [h], ?_⟩⟩
      · intro hc; rw [hc] at h; cases h
      · intro hc; rw [hc] at h; cases h
    · refine ⟨?_, by simp [h], fun i => ⟨by simp [h], ?_⟩⟩
      · intro hc; rw [hc] at h; cases h
      · intro hc; rw [hc] at h; cases h
  obtain ⟨h1, h2, h3⟩ := instanceEvents_prologue_mem m
  cases hc : m.createInstance with
  | false =>
    refine ⟨instanceEvents m, [Event.fprintf_stderr "ERROR vkCreateInstance() failed\n",
      Event.glfwTerminate], ?_, h1, h2, h3, stdout_instanceEvents m, hpre, ?_, fun _ => rfl⟩
    · rw [vkinfo_mock_fail m hc]
    · intro e he
      simp only [List.mem_cons, List.mem_singleton] at he
      rcases he with he | he | he
      · subst he; simp [Event.buffer]
      · subst he; simp [Event.buffer]
      · simp at he
  | true =>
    obtain ⟨post, hpost, hon⟩ := vkinfo_mock_created m hc
    refine ⟨instanceEvents m, post, hpost, h1, h2, h3, stdout_instanceEvents m, hpre, ?_,
      fun h => by simp at h⟩
    intro e he
    rcases hon e he with ⟨s, h⟩ | ⟨k, h⟩ | h | ⟨k, h⟩ | h | h
    · subst h; simp [Event.buffer]
    · subst h; simp [Event.buffer]
    · refine ⟨?_, ?_, by simp [h], by simp [h]⟩
      · intro hc; rw [hc] at h; cases h
      · intro hc; rw [hc] at h; cases h
    · refine ⟨?_, ?_, by simp [h], by simp [h]⟩
      · intro hc; rw [hc] at h; cases h
      · intro hc; rw [hc] at h; cases h
    · subst h; simp [Event.buffer]
    · subst h; simp [Event.buffer]

/-! ## Claims on the report -/

/-- C7 (counterexample): for the mock `noDevices`, whose instance creation
succeeds and which has no physical device, standard output is the three
instance-level sections followed by the line `<no physical devices>`.  That is
not the reference rendering, and it is not the three sections alone either. -/
theorem report_is_reference_counterexample :
    noDevices.createInstance = true ∧
    stdout (vkinfo noDevices.toRuntime).trace ≠ unlines (referenceReport noDevices) ∧
    stdout (vkinfo noDevices.toRuntime).trace ≠ unlines (referenceInstance noDevices) ∧
    stdout (vkinfo noDevices.toRuntime).trace =
      unlines (referenceInstance noDevices) ++ ["<no physical devices>\n"] := by
  decide

/-- C7 (amended): for every mock runtime in which instance creation succeeds
and no device reports the type code 5, the run returns exit status 0 and
standard output is, `printf` by `printf`, the reference rendering of the
mock's data in the fixed section order, except that a mock without physical
devices shows the line `<no physical devices>` after the layers section. -/
theorem vkinfo_report (m : Mock) (hc : m.createInstance = true)
    (ht : ∀ d ∈ m.devices, d.properties.deviceType ≠ 5) :
    (vkinfo m.toRuntime).exit = some 0 ∧
      stdout (vkinfo m.toRuntime).trace = unlines (reportWith "<no physical devices>" m) := by
  refine ⟨?_, stdout_vkinfo_mock_ok m hc ht⟩
  rw [vkinfo_mock_ok m hc ht]

/-- C7 (witness, the end-to-end scenario of the specification): 0 required
extensions, two instance extensions, 0 layers and the device GPU0 of type 2
without extensions give exit status 0 and the report below. -/
theorem vkinfo_report_scenario :
    (vkinfo scenario.toRuntime).exit = some 0 ∧
      stdout (vkinfo scenario.toRuntime).trace =
        ["INSTANCE EXTENSIONS REQUIRED BY GLFW\n", "<none>\n", "\n",
         "INSTANCE EXTENSIONS AVAILABLE\n", "VK_KHR_surface (spec version 1)\n",
         "VK_KHR_x (spec version 2)\n", "\n",
         "LAYERS AVAILABLE\n", "<none>\n", "\n",
         "DEVICE GPU0\n", "\n", "  Version: 1 (api); 1 (driver)\n",
         "  ID: 16 (vendor); 32 (device)\n", "  Type: 2 (discrete GPU)\n", "\n",
         "  Extensions:\n", "  <none>\n", "\n"] :=
  ⟨(vkinfo_report scenario rfl (by decide)).1,
    (vkinfo_report scenario rfl (by decide)).2.trans (by decide)⟩

/-! ## Claims on empty collections -/

/-- C3 (counterexample): the mock `noDevices` reports 0 physical devices and
its instance creation succeeds, yet the report has no line `<none>` at all:
the line printed for the empty device collection is `<no physical devices>`. -/
theorem none_placeholder_counterexample :
    noDevices.devices.length = 0 ∧ noDevices.createInstance = true ∧
    (vkinfo noDevices.toRuntime).exit = some 0 ∧
    "<none>\n" ∉ stdout (vkinfo noDevices.toRuntime).trace ∧
    (stdout (vkinfo noDevices.toRuntime).trace).getLast? = some "<no physical devices>\n" := by
  decide

/-- C3 (amended): an empty collection shows a single placeholder line in
place of its items.  For the required extensions, the instance extensions and
the layers the section is its heading, the line `<none>` and a blank line, in
every run.  For the physical devices, when instance creation succeeds, the
line is `<no physical devices>`, printed right after the layers section.  For
the extensions of a device, when instance creation succeeds and no device
reports the type code 5, the device block is printed and ends with
`  Extensions:`, the indented line `  <none>` and a blank line. -/
theorem empty_collection_placeholder (m : Mock) :
    (m.required = [] →
      ["INSTANCE EXTENSIONS REQUIRED BY GLFW\n", "<none>\n", "\n"]
        <+: stdout (vkinfo m.toRuntime).trace) ∧
    (m.instanceExtensions = [] →
      ["INSTANCE EXTENSIONS AVAILABLE\n", "<none>\n", "\n"]
        <:+: stdout (vkinfo m.toRuntime).trace) ∧
    (m.layers = [] →
      ["LAYERS AVAILABLE\n", "<none>\n", "\n"] <:+: stdout (vkinfo m.toRuntime).trace) ∧
    (m.createInstance = true → m.devices = [] →
      stdout (vkinfo m.toRuntime).trace =
        unlines (referenceInstance m) ++ ["<no physical devices>\n"]) ∧
    (m.createInstance = true → (∀ d ∈ m.devices, d.properties.deviceType ≠ 5) →
      ∀ d ∈ m.devices, d.extensions = [] →
        unlines (referenceDevice d) <:+: stdout (vkinfo m.toRuntime).trace ∧
        ["  Extensions:\n", "  <none>\n", "\n"] <:+ unlines (referenceDevice d)) := by
  obtain ⟨rest, hrest⟩ := stdout_vkinfo_mock m
  simp only [referenceInstance, unlines_append] at hrest
  refine ⟨?_, ?_, ?_, ?_, ?_⟩
  · intro h
    rw [hrest, h, List.append_assoc, List.append_assoc]
    exact List.prefix_append _ _
  · intro h
    rw [hrest, h, List.append_assoc]
    exact List.infix_append _ _ _
  · intro h
    rw [hrest, h]
    exact List.infix_append _ _ _
  · intro hc hd
    rw [stdout_vkinfo_mock_ok m hc (by simp [hd])]
    simp [reportWith, hd, unlines]
  · intro hc ht d hd he
    obtain ⟨l₁, l₂, hl⟩ := List.append_of_mem hd
    refine ⟨?_, ?_⟩
    · rw [stdout_vkinfo_mock_ok m hc ht]
      have hne : ¬ m.devices.length = 0 := by simp [hl]
      simp only [reportWith, hne, if_false, unlines_append]
      rw [hl]
      simp only [List.flatMap_append, List.flatMap_cons, unlines_append]
      rw [← List.append_assoc, ← List.append_assoc]
      exact List.infix_append _ _ _
    · simp only [referenceDevice, he, unlines_append]
      exact List.suffix_append _ _

/-- C8 (counterexample): in the run of the mock `allEmpty`, where every count
call reports 0, `malloc` is called for each of the three buffers, with size 0,
and each fetch call is made, with capacity 0 and that buffer as destination. -/
theorem no_allocation_counterexample :
    allEmpty.toRuntime.instanceExtensions.count = 0 ∧
    allEmpty.toRuntime.instanceLayers.count = 0 ∧
    allEmpty.toRuntime.physicalDevices.count = 0 ∧
    Event.malloc Buffer.available_extensions 0 ∈ (vkinfo allEmpty.toRuntime).trace ∧
    Event.enumerateFetch Buffer.available_extensions 0 ∈ (vkinfo allEmpty.toRuntime).trace ∧
    Event.malloc Buffer.available_layers 0 ∈ (vkinfo allEmpty.toRuntime).trace ∧
    Event.enumerateFetch Buffer.available_layers 0 ∈ (vkinfo allEmpty.toRuntime).trace ∧
    Event.malloc Buffer.devices 0 ∈ (vkinfo allEmpty.toRuntime).trace ∧
    Event.enumerateFetch Buffer.devices 0 ∈ (vkinfo allEmpty.toRuntime).trace := by
  decide

/-- C8 (amended): when the count call of a collection reports 0, the run still
calls `malloc` for its buffer, exactly once and with size 0, and still makes
the fetch call, exactly once and with capacity 0; there is no other `malloc`
and no other fetch call for that buffer, and no element of it is read.  This
holds for the extensions and the layers of the instance in every run, for the
physical devices when instance creation succeeds, and for the extensions of
the device at index `l₁.length` when instance creation succeeds and no device
reports the type code 5. -/
theorem empty_collection_allocation (m : Mock) :
    (m.instanceExtensions = [] →
      (vkinfo m.toRuntime).trace.count (Event.malloc Buffer.available_extensions 0) = 1 ∧
      (vkinfo m.toRuntime).trace.count (Event.enumerateFetch Buffer.available_extensions 0) = 1 ∧
      (∀ n, Event.malloc Buffer.available_extensions n ∈ (vkinfo m.toRuntime).trace → n = 0) ∧
      (∀ n, Event.enumerateFetch Buffer.available_extensions n ∈ (vkinfo m.toRuntime).trace → n = 0) ∧
      ∀ j, Event.read Buffer.available_extensions j ∉ (vkinfo m.toRuntime).trace) ∧
    (m.layers = [] →
      (vkinfo m.toRuntime).trace.count (Event.malloc Buffer.available_layers 0) = 1 ∧
      (vkinfo m.toRuntime).trace.count (Event.enumerateFetch Buffer.available_layers 0) = 1 ∧
      (∀ n, Event.malloc Buffer.available_layers n ∈ (vkinfo m.toRuntime).trace → n = 0) ∧
      (∀ n, Event.enumerateFetch Buffer.available_layers n ∈ (vkinfo m.toRuntime).trace → n = 0) ∧
      ∀ j, Event.read Buffer.available_layers j ∉ (vkinfo m.toRuntime).trace) ∧
    (m.createInstance = true → m.devices = [] →
      (vkinfo m.toRuntime).trace.count (Event.malloc Buffer.devices 0) = 1 ∧
      (vkinfo m.toRuntime).trace.count (Event.enumerateFetch Buffer.devices 0) = 1 ∧
      (∀ n, Event.malloc Buffer.devices n ∈ (vkinfo m.toRuntime).trace → n = 0) ∧
      (∀ n, Event.enumerateFetch Buffer.devices n ∈ (vkinfo m.toRuntime).trace → n = 0) ∧
      ∀ j, Event.read Buffer.devices j ∉ (vkinfo m.toRuntime).trace) ∧
    (m.createInstance = true → (∀ d ∈ m.devices, d.properties.deviceType ≠ 5) →
      ∀ l₁ d l₂, m.devices = l₁ ++ d :: l₂ → d.extensions = [] →
        (vkinfo m.toRuntime).trace.count (Event.malloc (Buffer.device_extensions l₁.length) 0) = 1 ∧
        (vkinfo m.toRuntime).trace.count (Event.enumerateFetch (Buffer.device_extensions l₁.length) 0) = 1 ∧
        (∀ n, Event.malloc (Buffer.device_extensions l₁.length) n ∈ (vkinfo m.toRuntime).trace → n = 0) ∧
        (∀ n, Event.enumerateFetch (Buffer.device_extensions l₁.length) n ∈ (vkinfo m.toRuntime).trace → n = 0) ∧
        ∀ j, Event.read (Buffer.device_extensions l₁.length) j ∉ (vkinfo m.toRuntime).trace) := by
  obtain ⟨⟨pre₁, post₁, ht₁, hb₁⟩, ⟨pre₂, post₂, ht₂, hb₂⟩, hdev⟩ := vkinfo_mock_blocks m
  refine ⟨?_, ?_, ?_, ?_⟩
  · intro h
    have := block_facts _ pre₁ post₁ _ _ _ _ _ ht₁ hb₁
    rw [h] at this
    simpa using this
  · intro h
    have := block_facts _ pre₂ post₂ _ _ _ _ _ ht₂ hb₂
    rw [h] at this
    simpa using this
  · intro hc hd
    obtain ⟨⟨pre, post, ht, hb⟩, _⟩ := hdev hc (by simp [hd])
    have := devices_block_facts _ pre post _ ht hb
    rw [hd] at this
    simpa using this
  · intro hc ht l₁ d l₂ hl he
    obtain ⟨pre, post, ht', hb⟩ := (hdev hc ht).2 l₁ d l₂ hl
    have := block_facts _ pre post _ _ _ _ _ ht' hb
    rw [he] at this
    simpa using this

/-! ## Claims on the two-phase enumerations -/

/-- The code at the failing input of C6: in the run of the mock `pastEndFirst`
the count call for the physical devices is made and reports 2 handles, `malloc`
is called once for 2 handles and the fetch call once with capacity 2; but the
first device has the type code 5, so the run prints the header lines of that
device only and has no exit status: the second handle is never read and no
record of the second device is printed. -/
theorem device_records_past_end_first :
    pastEndFirst.toRuntime.physicalDevices.count = 2 ∧
    (vkinfo pastEndFirst.toRuntime).trace.count (Event.enumerateCount Buffer.devices) = 1 ∧
    (vkinfo pastEndFirst.toRuntime).trace.count (Event.malloc Buffer.devices 2) = 1 ∧
    (vkinfo pastEndFirst.toRuntime).trace.count (Event.enumerateFetch Buffer.devices 2) = 1 ∧
    (vkinfo pastEndFirst.toRuntime).exit = none ∧
    Event.read Buffer.devices 0 ∈ (vkinfo pastEndFirst.toRuntime).trace ∧
    Event.read Buffer.devices 1 ∉ (vkinfo pastEndFirst.toRuntime).trace ∧
    stdout (vkinfo pastEndFirst.toRuntime).trace =
      ["INSTANCE EXTENSIONS REQUIRED BY GLFW\n", "VK_KHR_surface\n", "\n",
       "INSTANCE EXTENSIONS AVAILABLE\n", "VK_KHR_surface (spec version 25)\n", "\n",
       "LAYERS AVAILABLE\n", "<none>\n", "\n",
       "DEVICE GPU5\n", "\n", "  Version: 1 (api); 1 (driver)\n",
       "  ID: 16 (vendor); 32 (device)\n"] := by
  decide

/-! ## Runs of arbitrary runtimes that follow the protocol -/

theorem vkinfo_trace_of_honours {H : Type} (rt : Runtime H) (h : rt.HonoursCapacity) :
    ∃ tail, (vkinfo rt).trace =
        requiredSection rt ++ (instanceExtensionsSection rt).1
          ++ (instanceLayersSection rt).1 ++ tail ∧
      (tail = [Event.vkCreateInstance,
          Event.fprintf_stderr "ERROR vkCreateInstance() failed\n", Event.glfwTerminate] ∨
        ∃ teardown, tail = [Event.vkCreateInstance] ++ devicesPrologue rt
          ++ (forDevices rt rt.physicalDevices.count 0
              (rt.physicalDevices.fetch rt.physicalDevices.count)).1 ++ teardown ∧
          (teardown = [] ∨ teardown =
            [Event.free Buffer.devices, Event.vkDestroyInstance, Event.glfwTerminate])) := by
  have h2 : (instanceExtensionsSection rt).2 = true := by
    unfold instanceExtensionsSection
    rw [enumerateAndPrint_eq _ _ _ _ _ (h.1 _)]
  have h3 : (instanceLayersSection rt).2 = true := by
    unfold instanceLayersSection
    rw [enumerateAndPrint_eq _ _ _ _ _ (h.2.1 _)]
  cases hc : rt.createInstance with
  | false =>
    rw [vkinfo_of_fail rt h2 h3 hc]
    exact ⟨_, rfl, Or.inl rfl⟩
  | true =>
    cases h4 : (forDevices rt rt.physicalDevices.count 0
        (rt.physicalDevices.fetch rt.physicalDevices.count)).2 with
    | false =>
      rw [vkinfo_of_fault rt h2 h3 hc h4]
      exact ⟨[Event.vkCreateInstance] ++ devicesPrologue rt
        ++ (forDevices rt rt.physicalDevices.count 0
            (rt.physicalDevices.fetch rt.physicalDevices.count)).1 ++ [],
        by simp only [List.append_assoc, List.append_nil], Or.inr ⟨[], rfl, Or.inl rfl⟩⟩
    | true =>
      rw [vkinfo_of_ok rt h2 h3 hc h4]
      exact ⟨[Event.vkCreateInstance] ++ devicesPrologue rt
        ++ (forDevices rt rt.physicalDevices.count 0
            (rt.physicalDevices.fetch rt.physicalDevices.count)).1
        ++ [Event.free Buffer.devices, Event.vkDestroyInstance, Event.glfwTerminate],
        by simp only [List.append_assoc], Or.inr ⟨_, rfl, Or.inr rfl⟩⟩

/-- For every runtime whose fetch calls never report more elements than the
capacity they were handed, every element a run reads from a heap buffer lies
inside what was allocated for that buffer: the run has called `malloc` for
the buffer, for more elements than the index read. -/
theorem reads_within_allocation {H : Type} (rt : Runtime H) (h : rt.HonoursCapacity)
    (b : Buffer) (j : Nat) (hj : Event.read b j ∈ (vkinfo rt).trace) :
    ∃ n, Event.malloc b n ∈ (vkinfo rt).trace ∧ j < n := by
  obtain ⟨tail, ht, htail⟩ := vkinfo_trace_of_honours rt h
  rw [ht] at hj ⊢
  rcases List.mem_append.1 hj with hj | hj
  · rcases List.mem_append.1 hj with hj | hj
    · rcases List.mem_append.1 hj with hj | hj
      · rcases requiredSection_mem _ _ hj with h | h | ⟨s, h⟩ <;> cases h
      · have hm := (enumerateAndPrint_prologue_mem Buffer.available_extensions
          rt.instanceExtensions "INSTANCE EXTENSIONS AVAILABLE\n" "<none>\n" fmt_extension).2.1
        rcases enumerateAndPrint_mem _ _ _ _ _ _ hj with h' | h' | h' | h' | ⟨i, h', hi⟩ | ⟨s, h'⟩
        · cases h'
        · cases h'
        · cases h'
        · cases h'
        · cases h'
          refine ⟨rt.instanceExtensions.count, ?_, lt_of_lt_of_le hi (h.1 _)⟩
          simp only [List.mem_append]
          tauto
        · cases h'
    · have hm := (enumerateAndPrint_prologue_mem Buffer.available_layers
        rt.instanceLayers "LAYERS AVAILABLE\n" "<none>\n" fmt_layer).2.1
      rcases enumerateAndPrint_mem _ _ _ _ _ _ hj with h' | h' | h' | h' | ⟨i, h', hi⟩ | ⟨s, h'⟩
      · cases h'
      · cases h'
      · cases h'
      · cases h'
      · cases h'
        refine ⟨rt.instanceLayers.count, ?_, lt_of_lt_of_le hi (h.2.1 _)⟩
        simp only [List.mem_append]
        tauto
      · cases h'
  · rcases htail with htail | ⟨teardown, htail, hteardown⟩
    · rw [htail] at hj
      simp at hj
    · rw [htail] at hj ⊢
      rcases List.mem_append.1 hj with hj | hj
      · rcases List.mem_append.1 hj with hj | hj
        · rcases List.mem_append.1 hj with hj | hj
          · simp at hj
          · simp only [devicesPrologue, List.mem_append, List.mem_cons] at hj
            rcases hj with (hj | hj | hj | hj) | hj
            · cases hj
            · cases hj
            · cases hj
            · simp at hj
            · cases mem_placeholder hj
        · rcases forDevices_mem rt _ _ _ _ hj with ⟨i, hi, _, hlt⟩ | ⟨k, d, _, _, _, hk, hsub⟩
          · cases hi
            refine ⟨rt.physicalDevices.count, ?_, ?_⟩
            · simp [devicesPrologue]
            · have := h.2.2.1 rt.physicalDevices.count
              omega
          · have hm := deviceBody_malloc_mem rt k d
            rcases deviceBody_mem rt k d _ hk with
              h' | ⟨s, h'⟩ | h' | h' | h' | h' | ⟨i, h', hi⟩
            · cases h'
            · cases h'
            · cases h'
            · cases h'
            · cases h'
            · cases h'
            · have hb : b = Buffer.device_extensions k := by injection h'
              have hji : j = i := by injection h'
              subst hb
              subst hji
              refine ⟨(rt.deviceExtensions d).count, ?_, lt_of_lt_of_le hi (h.2.2.2 d _)⟩
              have := hsub _ (hm j hk)
              simp only [List.mem_append]
              simp [this]
      · rcases hteardown with h' | h' <;> rw [h'] at hj <;> simp at hj

/-- The code at the failing input of C10: the runtime `shrinking` follows the
two-phase protocol and its fetch call reports 2 physical devices, but the
first one has the type code 5: the run prints the header lines of the first
device only and has no exit status, so the device records printed are not as
many as the fetch call reported. -/
theorem shrinking_run :
    shrinking.HonoursCapacity ∧
    (shrinking.physicalDevices.fetch shrinking.physicalDevices.count).length = 2 ∧
    (vkinfo shrinking).exit = none ∧
    stdout (vkinfo shrinking).trace =
      ["INSTANCE EXTENSIONS REQUIRED BY GLFW\n", "<none>\n", "\n",
       "INSTANCE EXTENSIONS AVAILABLE\n", "<none>\n", "\n",
       "LAYERS AVAILABLE\n", "<none>\n", "\n",
       "DEVICE A\n", "\n", "  Version: 1 (api); 1 (driver)\n",
       "  ID: 1 (vendor); 1 (device)\n"] := by
  refine ⟨⟨?_, ?_, ?_, ?_⟩, by decide, by decide, by decide⟩
  · intro c; simp [shrinking]
  · intro c; simp [shrinking]
  · intro c; simp [shrinking, List.length_take]
  · intro d c; simp [shrinking]

/-! ## Claims on teardown -/

/-- The code at the failing input of C5: in the run of the mock
`pastEndDevice`, whose instance creation succeeds and whose device reports the
type code 5, the last event is the `ID` line of the device; the run has no
exit status and its trace has neither `vkDestroyInstance` nor
`glfwTerminate`. -/
theorem teardown_past_end_device :
    pastEndDevice.createInstance = true ∧
    (vkinfo pastEndDevice.toRuntime).exit = none ∧
    Event.vkDestroyInstance ∉ (vkinfo pastEndDevice.toRuntime).trace ∧
    Event.glfwTerminate ∉ (vkinfo pastEndDevice.toRuntime).trace ∧
    (vkinfo pastEndDevice.toRuntime).trace.getLast? =
      some (Event.printf "  ID: 16 (vendor); 32 (device)\n") := by
  decide

/-- Teardown on the success path: for every mock runtime in which instance
creation succeeds and no device reports the type code 5, the run returns 0 and
its trace ends with `free(devices)`, `vkDestroyInstance`, `glfwTerminate`;
neither call occurs earlier, and all output precedes them. -/
theorem vkinfo_teardown (m : Mock) (hc : m.createInstance = true)
    (ht : ∀ d ∈ m.devices, d.properties.deviceType ≠ 5) :
    (vkinfo m.toRuntime).exit = some 0 ∧
    ∃ pre, (vkinfo m.toRuntime).trace =
        pre ++ [Event.free Buffer.devices, Event.vkDestroyInstance, Event.glfwTerminate] ∧
      Event.vkDestroyInstance ∉ pre ∧ Event.glfwTerminate ∉ pre ∧
      stdout pre = stdout (vkinfo m.toRuntime).trace := by
  rw [vkinfo_mock_ok m hc ht]
  refine ⟨rfl, instanceEvents m ++ [Event.vkCreateInstance]
    ++ ([Event.enumerateCount Buffer.devices, Event.malloc Buffer.devices m.devices.length,
        Event.enumerateFetch Buffer.devices m.devices.length]
      ++ (if m.devices.length = 0 then [Event.printf "<no physical devices>\n"] else [])
      ++ devicesEvents 0 m.devices), ?_, ?_, ?_, ?_⟩
  · simp [devicesEnumerationEvents]
  · intro h
    rcases List.mem_append.1 h with h | h
    · rcases List.mem_append.1 h with h | h
      · rcases instanceEvents_mem m _ h with h | h | ⟨s, h⟩ | h | h <;> cases h
      · simp at h
    · rcases List.mem_append.1 h with h | h
      · rcases List.mem_append.1 h with h | h
        · simp at h
        · cases mem_placeholder h
      · rcases devicesEvents_onDevices _ _ _ h with ⟨s, h⟩ | ⟨i, _, _, h | h | h⟩ <;> cases h
  · intro h
    rcases List.mem_append.1 h with h | h
    · rcases List.mem_append.1 h with h | h
      · rcases instanceEvents_mem m _ h with h | h | ⟨s, h⟩ | h | h <;> cases h
      · simp at h
    · rcases List.mem_append.1 h with h | h
      · rcases List.mem_append.1 h with h | h
        · simp at h
        · cases mem_placeholder h
      · rcases devicesEvents_onDevices _ _ _ h with ⟨s, h⟩ | ⟨i, _, _, h | h | h⟩ <;> cases h
  · simp only [devicesEnumerationEvents, stdout_append]
    simp [stdout]

/-! ## The claims at concrete mocks -/

/-- C4 at the mock `creationFails`. -/
theorem vkinfo_creation_failure_witness :
    (vkinfo creationFails.toRuntime).exit = some 1 ∧
    (vkinfo creationFails.toRuntime).trace.count Event.glfwTerminate = 1 ∧
    (vkinfo creationFails.toRuntime).trace.getLast? = some Event.glfwTerminate ∧
    (vkinfo creationFails.toRuntime).trace.count Event.vkDestroyInstance = 0 ∧
    stderr (vkinfo creationFails.toRuntime).trace = ["ERROR vkCreateInstance() failed\n"] :=
  vkinfo_creation_failure creationFails rfl

/-- C9 (amended) at the mock `creationFails`: what follows `vkCreateInstance`
is the diagnostic and `glfwTerminate`. -/
theorem create_after_instance_sections_witness :
    ∃ pre post, (vkinfo creationFails.toRuntime).trace = pre ++ Event.vkCreateInstance :: post ∧
      stdout pre = unlines (referenceInstance creationFails) ∧
      post = [Event.fprintf_stderr "ERROR vkCreateInstance() failed\n", Event.glfwTerminate] := by
  obtain ⟨pre, post, h1, _, _, _, h5, _, _, h8⟩ := create_after_instance_sections creationFails
  exact ⟨pre, post, h1, h5, h8 rfl⟩

/-- C3 (amended) at the mocks `allEmpty` (every collection empty) and
`scenario` (a device without extensions). -/
theorem empty_collection_placeholder_witness :
    (["INSTANCE EXTENSIONS REQUIRED BY GLFW\n", "<none>\n", "\n"]
      <+: stdout (vkinfo allEmpty.toRuntime).trace) ∧
    (["INSTANCE EXTENSIONS AVAILABLE\n", "<none>\n", "\n"]
      <:+: stdout (vkinfo allEmpty.toRuntime).trace) ∧
    (["LAYERS AVAILABLE\n", "<none>\n", "\n"] <:+: stdout (vkinfo allEmpty.toRuntime).trace) ∧
    (stdout (vkinfo allEmpty.toRuntime).trace =
      unlines (referenceInstance allEmpty) ++ ["<no physical devices>\n"]) ∧
    (unlines (referenceDevice ⟨⟨"GPU0", 1, 1, 0x10, 0x20, 2⟩, []⟩)
        <:+: stdout (vkinfo scenario.toRuntime).trace ∧
      ["  Extensions:\n", "  <none>\n", "\n"]
        <:+ unlines (referenceDevice ⟨⟨"GPU0", 1, 1, 0x10, 0x20, 2⟩, []⟩)) :=
  ⟨(empty_collection_placeholder allEmpty).1 rfl,
    (empty_collection_placeholder allEmpty).2.1 rfl,
    (empty_collection_placeholder allEmpty).2.2.1 rfl,
    (empty_collection_placeholder allEmpty).2.2.2.1 rfl rfl,
    (empty_collection_placeholder scenario).2.2.2.2 rfl (by decide) _ (by decide) rfl⟩

/-- C8 (amended) at the mocks `allEmpty` (every collection empty) and
`mixedExtensions` (the second of three devices has no extension). -/
theorem empty_collection_allocation_witness :
    ((vkinfo allEmpty.toRuntime).trace.count (Event.malloc Buffer.available_extensions 0) = 1 ∧
      (vkinfo allEmpty.toRuntime).trace.count (Event.enumerateFetch Buffer.available_extensions 0) = 1 ∧
      (∀ n, Event.malloc Buffer.available_extensions n ∈ (vkinfo allEmpty.toRuntime).trace → n = 0) ∧
      (∀ n, Event.enumerateFetch Buffer.available_extensions n ∈ (vkinfo allEmpty.toRuntime).trace → n = 0) ∧
      ∀ j, Event.read Buffer.available_extensions j ∉ (vkinfo allEmpty.toRuntime).trace) ∧
    ((vkinfo allEmpty.toRuntime).trace.count (Event.malloc Buffer.available_layers 0) = 1 ∧
      (vkinfo allEmpty.toRuntime).trace.count (Event.enumerateFetch Buffer.available_layers 0) = 1 ∧
      (∀ n, Event.malloc Buffer.available_layers n ∈ (vkinfo allEmpty.toRuntime).trace → n = 0) ∧
      (∀ n, Event.enumerateFetch Buffer.available_layers n ∈ (vkinfo allEmpty.toRuntime).trace → n = 0) ∧
      ∀ j, Event.read Buffer.available_layers j ∉ (vkinfo allEmpty.toRuntime).trace) ∧
    ((vkinfo allEmpty.toRuntime).trace.count (Event.malloc Buffer.devices 0) = 1 ∧
      (vkinfo allEmpty.toRuntime).trace.count (Event.enumerateFetch Buffer.devices 0) = 1 ∧
      (∀ n, Event.malloc Buffer.devices n ∈ (vkinfo allEmpty.toRuntime).trace → n = 0) ∧
      (∀ n, Event.enumerateFetch Buffer.devices n ∈ (vkinfo allEmpty.toRuntime).trace → n = 0) ∧
      ∀ j, Event.read Buffer.devices j ∉ (vkinfo allEmpty.toRuntime).trace) ∧
    ((vkinfo mixedExtensions.toRuntime).trace.count (Event.malloc (Buffer.device_extensions 1) 0) = 1 ∧
      (vkinfo mixedExtensions.toRuntime).trace.count (Event.enumerateFetch (Buffer.device_extensions 1) 0) = 1 ∧
      (∀ n, Event.malloc (Buffer.device_extensions 1) n ∈ (vkinfo mixedExtensions.toRuntime).trace → n = 0) ∧
      (∀ n, Event.enumerateFetch (Buffer.device_extensions 1) n ∈ (vkinfo mixedExtensions.toRuntime).trace → n = 0) ∧
      ∀ j, Event.read (Buffer.device_extensions 1) j ∉ (vkinfo mixedExtensions.toRuntime).trace) :=
  ⟨(empty_collection_allocation allEmpty).1 rfl,
    (empty_collection_allocation allEmpty).2.1 rfl,
    (empty_collection_allocation allEmpty).2.2.1 rfl rfl,
    (empty_collection_allocation mixedExtensions).2.2.2 rfl (by decide)
      [⟨⟨"GPU0", 1, 2, 0x10, 0x20, 2⟩, [⟨"VK_KHR_swapchain", 70⟩, ⟨"VK_KHR_maintenance1", 2⟩]⟩]
      ⟨⟨"GPU1", 3, 4, 0x11, 0x21, 1⟩, []⟩
      [⟨⟨"CPU0", 5, 6, 0x12, 0x22, 4⟩, [⟨"VK_KHR_swapchain", 70⟩]⟩] rfl rfl⟩

end Vkinfo
